import Mathlib

/-!
Verification of the terrific-audio-driver core against its specification.

The Rust sources under `crates/brr` and `crates/compiler` are shallowly
embedded below: machine integers become `Nat`/`Int` with explicit wrapping
where the Rust code wraps, fallible operations return `Option`/`Except`,
and a Rust operation that can panic (division by zero, failed `unwrap`)
is modelled as an `Option` returning `none` on the panicking path.

Parts of the repository referenced by the embedded files but absent from
the provided sources (`brr/src/decoder.rs`, `compiler/src/bytecode.rs`,
`compiler/src/driver_constants.rs`) are modelled from the specification;
each such definition carries a doc comment saying so.
-/

namespace Tad

/-! ### BRR data model (crates/brr) -/

/-- Modelled from the spec: an I15 sample is a signed value in
[-16384, 16383] (`decoder.rs` is not in the provided sources). -/
def I15Sample : Type := {x : Int // -16384 ≤ x ∧ x ≤ 16383}

instance : DecidableEq I15Sample := fun a b =>
  decidable_of_iff (a.val = b.val) Subtype.ext_iff.symm

/-- The zero sample, `I15Sample::default()`. -/
def I15Sample.zero : I15Sample := ⟨0, by decide⟩

def I15Sample.value (s : I15Sample) : Int := s.val

/-- Modelled from the spec: wrap-and-clip reduces an integer modulo 2^15
into [-16384, 16383] by sign-extending the low 15 bits (spec §3 and
Glossary; the Rust function `I15Sample::clamp_and_clip` lives in the
missing `decoder.rs`). -/
def I15Sample.clamp_and_clip (v : Int) : I15Sample :=
  ⟨(v + 16384) % 32768 - 16384, by
    constructor
    · have h := Int.emod_nonneg (v + 16384) (by norm_num : (32768 : Int) ≠ 0)
      omega
    · have h := Int.emod_lt_of_pos (v + 16384) (by norm_num : (0 : Int) < 32768)
      omega⟩

/-- A 16-bit PCM sample value. -/
def I16 : Type := {x : Int // -32768 ≤ x ∧ x ≤ 32767}

instance : DecidableEq I16 := fun a b =>
  decidable_of_iff (a.val = b.val) Subtype.ext_iff.symm

/-- Modelled from the spec: an I15 sample is constructed from a 16-bit PCM
input by an arithmetic right-shift of one (spec §3). -/
def I15Sample.from_sample (x : I16) : I15Sample :=
  ⟨Int.fdiv x.val 2, by
    obtain ⟨h1, h2⟩ := x.property
    rw [Int.fdiv_eq_ediv _ (by norm_num)]
    constructor
    · have : (-32768 : Int) / 2 ≤ x.val / 2 := Int.ediv_le_ediv (by norm_num) h1
      simpa using this
    · have : x.val / 2 ≤ (32767 : Int) / 2 := Int.ediv_le_ediv (by norm_num) h2
      simpa using this⟩

/-- The four BRR predictor filters (`BrrFilter` in `brr/src/lib.rs`). -/
inductive BrrFilter : Type
  | Filter0
  | Filter1
  | Filter2
  | Filter3
deriving DecidableEq

def BrrFilter.as_u8 : BrrFilter → Nat
  | .Filter0 => 0
  | .Filter1 => 1
  | .Filter2 => 2
  | .Filter3 => 3

/-- `MAX_SHIFT` from `encoder.rs`. -/
def MAX_SHIFT : Nat := 12

/-- `I4_MIN` from `encoder.rs`. -/
def I4_MIN : Int := -8

/-- `I4_MAX` from `encoder.rs`. -/
def I4_MAX : Int := 7

/-- `SAMPLES_PER_BLOCK` (16); modelled from the spec (`brr/src/lib.rs` is
not in the provided sources). -/
def SAMPLES_PER_BLOCK : Nat := 16

/-- `BYTES_PER_BRR_BLOCK` (9); modelled from the spec. -/
def BYTES_PER_BRR_BLOCK : Nat := 9

/-- `BRR_HEADER_END_FLAG` (bit 0 of the block header); modelled from the
spec (§3: header = shift<<4 | filter<<2 | end_flag<<0 | loop_flag<<1). -/
def BRR_HEADER_END_FLAG : Nat := 1

/-- `BRR_HEADER_LOOP_FLAG` (bit 1 of the block header); modelled from the
spec. -/
def BRR_HEADER_LOOP_FLAG : Nat := 2

/-- `BrrBlock` from `encoder.rs`. -/
structure BrrBlock : Type where
  filter : BrrFilter
  shift : Nat
  nibbles : List Int
  decoded_samples : List I15Sample
deriving DecidableEq

/-- The body of the `for` loop of `build_block` (`encoder.rs` lines
88-102), as structural recursion over the samples.  The running
`(prev1, prev2)` pair is threaded exactly as in the source:
`prev2 = prev1; prev1 = d`. -/
def blockLoop (filter_fn : I15Sample → I15Sample → Int) (shift : Nat) :
    List I15Sample → I15Sample → I15Sample → List Int × List I15Sample
  | [], _, _ => ([], [])
  | s :: rest, prev1, prev2 =>
    let offset := filter_fn prev1 prev2
    let n := min I4_MAX (max I4_MIN (Int.tdiv ((s.value - offset) * 2) (2 ^ shift)))
    let d := I15Sample.clamp_and_clip (Int.fdiv (n * 2 ^ shift) 2 + offset)
    let p := blockLoop filter_fn shift rest d prev1
    (n :: p.1, d :: p.2)

/-- `build_block` from `encoder.rs` (lines 70-110).  Rust's truncating
`i32` division is `Int.tdiv`; the arithmetic shift `>> 1` is `Int.fdiv 2`;
`clamp(I4_MIN, I4_MAX)` is `min I4_MAX (max I4_MIN _)`. -/
def build_block (filter_fn : I15Sample → I15Sample → Int)
    (samples : List I15Sample) (shift : Nat) (filter : BrrFilter)
    (prev1 prev2 : I15Sample) : BrrBlock :=
  let p := blockLoop filter_fn shift samples prev1 prev2
  { filter := filter, shift := shift, nibbles := p.1, decoded_samples := p.2 }

/-! Specification-side recurrence for C1, written from the spec text
(§4.1 "Block encode"): offset, quantized nibble, decoded sample and the
`(p2, p1) ← (p1, d)` predictor update, indexed by sample position. -/

/-- Spec §4.1: the quantized nibble for one sample given the previous two
decoded samples: `clamp(round_toward_zero((r << 1) / (1 << shift)), -8, +7)`. -/
def spec_quantize (filter_fn : I15Sample → I15Sample → Int) (shift : Nat)
    (st : I15Sample × I15Sample) (s : I15Sample) : Int :=
  min I4_MAX (max I4_MIN (Int.tdiv ((s.value - filter_fn st.1 st.2) * 2) (2 ^ shift)))

/-- Spec §4.1: the decoded sample `d = wrap_and_clip(((n << shift) >> 1) + offset)`. -/
def spec_decode_back (filter_fn : I15Sample → I15Sample → Int) (shift : Nat)
    (st : I15Sample × I15Sample) (s : I15Sample) : I15Sample :=
  I15Sample.clamp_and_clip
    (Int.fdiv (spec_quantize filter_fn shift st s * 2 ^ shift) 2 + filter_fn st.1 st.2)

/-- Spec §4.1: the predictor state `(p1, p2)` before sample `i`, following
the update rule `(p2, p1) ← (p1, d)` after each sample. -/
def spec_prev_state (filter_fn : I15Sample → I15Sample → Int) (shift : Nat)
    (samples : List I15Sample) (p1 p2 : I15Sample) :
    Nat → I15Sample × I15Sample
  | 0 => (p1, p2)
  | i + 1 =>
    let st := spec_prev_state filter_fn shift samples p1 p2 i
    (spec_decode_back filter_fn shift st (samples.getD i I15Sample.zero), st.1)

/-- Spec §4.1: the nibble emitted for sample `i`. -/
def spec_nibble (filter_fn : I15Sample → I15Sample → Int) (shift : Nat)
    (samples : List I15Sample) (p1 p2 : I15Sample) (i : Nat) : Int :=
  spec_quantize filter_fn shift (spec_prev_state filter_fn shift samples p1 p2 i)
    (samples.getD i I15Sample.zero)

/-- Spec §4.1: the decoded sample stored for sample `i`. -/
def spec_decoded (filter_fn : I15Sample → I15Sample → Int) (shift : Nat)
    (samples : List I15Sample) (p1 p2 : I15Sample) (i : Nat) : I15Sample :=
  spec_decode_back filter_fn shift (spec_prev_state filter_fn shift samples p1 p2 i)
    (samples.getD i I15Sample.zero)

lemma spec_prev_state_cons (filter_fn : I15Sample → I15Sample → Int) (shift : Nat)
    (s : I15Sample) (rest : List I15Sample) (p1 p2 : I15Sample) (i : Nat) :
    spec_prev_state filter_fn shift (s :: rest) p1 p2 (i + 1) =
      spec_prev_state filter_fn shift rest
        (spec_decode_back filter_fn shift (p1, p2) s) p1 i := by
  induction i with
  | zero => simp [spec_prev_state]
  | succ i ih =>
    conv_lhs => rw [spec_prev_state]
    rw [ih, List.getD_cons_succ]
    rfl

lemma blockLoop_length (filter_fn : I15Sample → I15Sample → Int) (shift : Nat) :
    ∀ (samples : List I15Sample) (p1 p2 : I15Sample),
      (blockLoop filter_fn shift samples p1 p2).1.length = samples.length ∧
      (blockLoop filter_fn shift samples p1 p2).2.length = samples.length := by
  intro samples
  induction samples with
  | nil => intro p1 p2; simp [blockLoop]
  | cons s rest ih =>
    intro p1 p2
    simp only [blockLoop, List.length_cons]
    constructor
    · exact congrArg Nat.succ (ih _ _).1
    · exact congrArg Nat.succ (ih _ _).2

lemma blockLoop_getD (filter_fn : I15Sample → I15Sample → Int) (shift : Nat) :
    ∀ (samples : List I15Sample) (p1 p2 : I15Sample) (i : Nat), i < samples.length →
      (blockLoop filter_fn shift samples p1 p2).1.getD i 0 =
        spec_nibble filter_fn shift samples p1 p2 i ∧
      (blockLoop filter_fn shift samples p1 p2).2.getD i I15Sample.zero =
        spec_decoded filter_fn shift samples p1 p2 i := by
  intro samples
  induction samples with
  | nil => intro p1 p2 i hi; simp at hi
  | cons s rest ih =>
    intro p1 p2 i hi
    match i with
    | 0 =>
      constructor
      · simp [blockLoop, spec_nibble, spec_prev_state, spec_quantize]
      · simp [blockLoop, spec_decoded, spec_prev_state, spec_decode_back, spec_quantize]
    | i + 1 =>
      have hrest : i < rest.length := by simpa using hi
      have h := ih (I15Sample.clamp_and_clip
          (Int.fdiv (min I4_MAX (max I4_MIN
              (Int.tdiv ((s.value - filter_fn p1 p2) * 2) (2 ^ shift))) * 2 ^ shift) 2 +
            filter_fn p1 p2)) p1 i hrest
      constructor
      · show (blockLoop filter_fn shift (s :: rest) p1 p2).1.getD (i + 1) 0 = _
        rw [show (blockLoop filter_fn shift (s :: rest) p1 p2).1 =
            _ :: (blockLoop filter_fn shift rest _ p1).1 from rfl]
        rw [List.getD_cons_succ]
        rw [h.1]
        unfold spec_nibble
        rw [spec_prev_state_cons]
        congr 1
      · show (blockLoop filter_fn shift (s :: rest) p1 p2).2.getD (i + 1)
            I15Sample.zero = _
        rw [show (blockLoop filter_fn shift (s :: rest) p1 p2).2 =
            _ :: (blockLoop filter_fn shift rest _ p1).2 from rfl]
        rw [List.getD_cons_succ]
        rw [h.2]
        unfold spec_decoded
        rw [spec_prev_state_cons]
        congr 1

end Tad

namespace Tad

/-! ### Best-block search (`encoder.rs` lines 112-152) -/

/-- `i64::MAX`, the initial value of `best_block_score`. -/
def i64_MAX : Int := 2 ^ 63 - 1

/-- `calc_squared_error` from `encoder.rs` (lines 112-124): the `i64` sum
of squared deltas between the decoded and the original samples.  The sum
of 16 squares of 15-bit deltas is below 2^35, so `i64` never overflows
and plain `Int` is a faithful model. -/
def calc_squared_error (block : BrrBlock) (samples : List I15Sample) : Int :=
  (block.decoded_samples.zip samples).foldl
    (fun acc p => acc + (p.1.value - p.2.value) * (p.1.value - p.2.value)) 0

/-- The 52 candidate blocks of `find_best_block`, in the source's
enumeration order: filters 0,1,2,3 outer, shifts 0..=12 inner.  The
filter functions `filter0..filter3` live in the missing `decoder.rs` and
are taken as parameters. -/
def fbb_candidates (fn0 fn1 fn2 fn3 : I15Sample → I15Sample → Int)
    (samples : List I15Sample) (p1 p2 : I15Sample) : List BrrBlock :=
  [(BrrFilter.Filter0, fn0), (BrrFilter.Filter1, fn1),
   (BrrFilter.Filter2, fn2), (BrrFilter.Filter3, fn3)].flatMap
    (fun f => (List.range (MAX_SHIFT + 1)).map
      (fun shift => build_block f.2 samples shift f.1 p1 p2))

/-- `find_best_block` from `encoder.rs` (lines 126-152): fold over the 52
candidates keeping the first strict improvement, exactly as the source's
`if score < best_block_score` update; the accumulator starts at
`(None, i64::MAX)`. -/
def find_best_block (fn0 fn1 fn2 fn3 : I15Sample → I15Sample → Int)
    (samples : List I15Sample) (p1 p2 : I15Sample) : Option BrrBlock :=
  ((fbb_candidates fn0 fn1 fn2 fn3 samples p1 p2).foldl
    (fun acc block =>
      if calc_squared_error block samples < acc.2
      then (some block, calc_squared_error block samples)
      else acc)
    (none, i64_MAX)).1

/-- First-minimum selection: the element kept by a `score < best` fold. -/
def pickFirst {α : Type} (key : α → Int) : α → List α → α
  | b, [] => b
  | b, x :: l => if key x < key b then pickFirst key x l else pickFirst key b l

lemma minFold_some {α : Type} (key : α → Int) :
    ∀ (l : List α) (b : α),
      l.foldl (fun acc x => if key x < acc.2 then (some x, key x) else acc)
          (some b, key b) =
        (some (pickFirst key b l), key (pickFirst key b l)) := by
  intro l
  induction l with
  | nil => intro b; simp [pickFirst]
  | cons x l ih =>
    intro b
    simp only [List.foldl_cons]
    by_cases h : key x < key b
    · rw [if_pos h,
        show pickFirst key b (x :: l) = pickFirst key x l from by
          rw [pickFirst, if_pos h]]
      exact ih x
    · rw [if_neg h,
        show pickFirst key b (x :: l) = pickFirst key b l from by
          rw [pickFirst, if_neg h]]
      exact ih b

lemma minFold_cons {α : Type} (key : α → Int) (x : α) (l : List α) (M : Int)
    (hx : key x < M) :
    (x :: l).foldl (fun acc y => if key y < acc.2 then (some y, key y) else acc)
        (none, M) =
      (some (pickFirst key x l), key (pickFirst key x l)) := by
  simp only [List.foldl_cons, if_pos hx]
  exact minFold_some key l x

lemma pickFirst_spec {α : Type} (key : α → Int) :
    ∀ (l : List α) (b : α),
      ∃ l1 l2, b :: l = l1 ++ pickFirst key b l :: l2 ∧
        (∀ x ∈ b :: l, key (pickFirst key b l) ≤ key x) ∧
        (∀ x ∈ l1, key (pickFirst key b l) < key x) := by
  intro l
  induction l with
  | nil =>
    intro b
    refine ⟨[], [], rfl, ?_, by simp⟩
    intro x hx
    simp only [List.mem_singleton] at hx
    simp [hx, pickFirst]
  | cons x l ih =>
    intro b
    by_cases h : key x < key b
    · obtain ⟨l1, l2, heq, hmin, hstrict⟩ := ih x
      have hpk : pickFirst key b (x :: l) = pickFirst key x l := by
        rw [pickFirst, if_pos h]
      refine ⟨b :: l1, l2, ?_, ?_, ?_⟩
      · rw [hpk, List.cons_append, ← heq]
      · intro y hy
        rw [hpk]
        rcases List.mem_cons.mp hy with hy | hy
        · subst hy
          exact le_of_lt (lt_of_le_of_lt (hmin x (List.mem_cons_self x l)) h)
        · exact hmin y hy
      · intro y hy
        rw [hpk]
        rcases List.mem_cons.mp hy with hy | hy
        · subst hy
          exact lt_of_le_of_lt (hmin x (List.mem_cons_self x l)) h
        · exact hstrict y hy
    · obtain ⟨l1, l2, heq, hmin, hstrict⟩ := ih b
      have hpk : pickFirst key b (x :: l) = pickFirst key b l := by
        rw [pickFirst, if_neg h]
      rcases l1 with _ | ⟨c, t⟩
      · simp only [List.nil_append] at heq
        have hcb := List.cons_eq_cons.mp heq
        have hpb : pickFirst key b l = b := hcb.1.symm
        refine ⟨[], x :: l, ?_, ?_, by simp⟩
        · rw [hpk, hpb, List.nil_append]
        · intro y hy
          rw [hpk, hpb]
          rcases List.mem_cons.mp hy with hy | hy
          · subst hy; exact le_refl _
          rcases List.mem_cons.mp hy with hy | hy
          · subst hy; exact le_of_not_lt h
          · have := hmin y (List.mem_cons_of_mem b hy)
            rwa [hpb] at this
      · rw [List.cons_append] at heq
        have hcb := List.cons_eq_cons.mp heq
        have hb : key (pickFirst key b l) < key b := by
          have := hstrict c (List.mem_cons_self c t)
          rwa [← hcb.1] at this
        refine ⟨b :: x :: t, l2, ?_, ?_, ?_⟩
        · rw [hpk, List.cons_append, List.cons_append, ← hcb.2]
        · intro y hy
          rw [hpk]
          rcases List.mem_cons.mp hy with hy | hy
          · rw [hy]; exact hmin b (List.mem_cons_self b l)
          rcases List.mem_cons.mp hy with hy | hy
          · subst hy; exact le_of_lt (lt_of_lt_of_le hb (le_of_not_lt h))
          · exact hmin y (List.mem_cons_of_mem b hy)
        · intro y hy
          rw [hpk]
          rcases List.mem_cons.mp hy with hy | hy
          · subst hy; exact hb
          rcases List.mem_cons.mp hy with hy | hy
          · subst hy; exact lt_of_lt_of_le hb (le_of_not_lt h)
          · exact hstrict y (List.mem_cons_of_mem c hy)

lemma squared_delta_le (d s : I15Sample) :
    (d.value - s.value) * (d.value - s.value) ≤ 1073676289 := by
  obtain ⟨hd1, hd2⟩ := d.property
  obtain ⟨hs1, hs2⟩ := s.property
  show (d.val - s.val) * (d.val - s.val) ≤ 32767 * 32767
  nlinarith

lemma calc_squared_error_foldl_le :
    ∀ (l : List (I15Sample × I15Sample)) (acc : Int),
      l.foldl (fun a p => a + (p.1.value - p.2.value) * (p.1.value - p.2.value)) acc ≤
        acc + l.length * 1073676289 := by
  intro l
  induction l with
  | nil => intro acc; simp
  | cons p l ih =>
    intro acc
    have h1 := ih (acc + (p.1.value - p.2.value) * (p.1.value - p.2.value))
    have h2 := squared_delta_le p.1 p.2
    simp only [List.foldl_cons, List.length_cons]
    calc _ ≤ acc + (p.1.value - p.2.value) * (p.1.value - p.2.value)
              + l.length * 1073676289 := h1
    _ ≤ acc + (l.length + 1) * 1073676289 := by push_cast; nlinarith
    _ = acc + (↑l.length + 1) * 1073676289 := by push_cast; ring

lemma calc_squared_error_lt_i64_MAX (block : BrrBlock) (samples : List I15Sample)
    (hlen : samples.length = 16) :
    calc_squared_error block samples < i64_MAX := by
  unfold calc_squared_error
  have h := calc_squared_error_foldl_le (block.decoded_samples.zip samples) 0
  have hz : (block.decoded_samples.zip samples).length ≤ 16 := by
    rw [List.length_zip, hlen]
    exact min_le_right _ _
  have : ((block.decoded_samples.zip samples).length : Int) * 1073676289 ≤
      16 * 1073676289 := by
    apply mul_le_mul_of_nonneg_right _ (by norm_num)
    exact_mod_cast hz
  unfold i64_MAX
  omega

/-- The property C2 asserts of the best-block search: all 52 candidates
are enumerated; the returned block is one of them, its squared error is
minimal among all candidates, and every candidate strictly before it in
filter-then-shift order has a strictly larger squared error (first
minimum wins ties). -/
def find_best_block_is_first_min (fn0 fn1 fn2 fn3 : I15Sample → I15Sample → Int)
    (samples : List I15Sample) (p1 p2 : I15Sample) : Prop :=
  (fbb_candidates fn0 fn1 fn2 fn3 samples p1 p2).length = 52 ∧
  ∃ best l1 l2,
    find_best_block fn0 fn1 fn2 fn3 samples p1 p2 = some best ∧
    fbb_candidates fn0 fn1 fn2 fn3 samples p1 p2 = l1 ++ best :: l2 ∧
    (∀ c ∈ fbb_candidates fn0 fn1 fn2 fn3 samples p1 p2,
      calc_squared_error best samples ≤ calc_squared_error c samples) ∧
    (∀ c ∈ l1, calc_squared_error best samples < calc_squared_error c samples)

/-! ### encode_brr (`encoder.rs` lines 154-300) -/

/-- `EncodeError` from `encoder.rs`. -/
inductive EncodeError : Type
  | NoSamples
  | InvalidNumberOfSamples
  | TooManySamples
  | InvalidLoopPoint
  | LoopPointTooLarge (lp s_len : Nat)
  | DupeBlockHackNotAllowedWithLoopPoint
  | DupeBlockHackNotAllowedWithLoopResetsFilter
  | DupeBlockHackTooLarge
deriving DecidableEq

/-- `BrrSample` (`brr/src/lib.rs`, not in the provided sources): loop byte
offset plus raw BRR bytes, as described in spec §3. -/
structure BrrSample : Type where
  loop_offset : Option Nat
  brr_data : List Nat
deriving DecidableEq

/-- `usize::MAX`, the sentinel `loop_block` used when the sample does not
loop. -/
def usize_MAX : Nat := 2 ^ 64 - 1

/-- Selects the filter function for a `BrrFilter`, as the `match` in
`find_best_block_filter`; the four functions are parameters because
`decoder.rs` is not in the provided sources. -/
def filter_fn_for (fn0 fn1 fn2 fn3 : I15Sample → I15Sample → Int) :
    BrrFilter → I15Sample → I15Sample → Int
  | .Filter0 => fn0
  | .Filter1 => fn1
  | .Filter2 => fn2
  | .Filter3 => fn3

/-- `find_best_block_filter` from `encoder.rs` (lines 154-173):
`(0..=MAX_SHIFT).map(build_block).min_by_key(calc_squared_error)`, where
Rust's `min_by_key` keeps the first minimum; the `.unwrap()` never fails
because the shift list is non-empty. -/
def find_best_block_filter (fn0 fn1 fn2 fn3 : I15Sample → I15Sample → Int)
    (samples : List I15Sample) (filter : BrrFilter) (p1 p2 : I15Sample) : BrrBlock :=
  let fnf := filter_fn_for fn0 fn1 fn2 fn3 filter
  pickFirst (fun b => calc_squared_error b samples)
    (build_block fnf samples 0 filter p1 p2)
    ((List.range' 1 MAX_SHIFT).map (fun shift => build_block fnf samples shift filter p1 p2))

/-- The `best_block.unwrap()` at the end of `find_best_block`: the fold
always yields `some` (the first candidate's score is below `i64::MAX`),
so the default value is unreachable. -/
def find_best_block_or (fn0 fn1 fn2 fn3 : I15Sample → I15Sample → Int)
    (samples : List I15Sample) (p1 p2 : I15Sample) : BrrBlock :=
  (find_best_block fn0 fn1 fn2 fn3 samples p1 p2).getD
    (build_block fn0 samples 0 .Filter0 p1 p2)

/-- `encode_block` from `encoder.rs` (lines 176-201): one header byte
followed by eight bytes of packed nibbles.  An `i8` nibble's low byte is
its value modulo 256, so `n & 0xf` is `(n % 16).toNat` with Lean's
Euclidean `%`. -/
def encode_block (block : BrrBlock) (end_flag loop_flag : Bool) : List Nat :=
  let header0 := ((block.shift &&& 0xf) <<< 4) ||| (block.filter.as_u8 <<< 2)
  let header :=
    if end_flag then
      if loop_flag then (header0 ||| BRR_HEADER_END_FLAG) ||| BRR_HEADER_LOOP_FLAG
      else header0 ||| BRR_HEADER_END_FLAG
    else header0
  header :: (List.range 8).map (fun i =>
    let nibble0 := ((block.nibbles.getD (i * 2) 0) % 16).toNat
    let nibble1 := ((block.nibbles.getD (i * 2 + 1) 0) % 16).toNat
    (nibble0 <<< 4) ||| nibble1)

/-- One 16-sample chunk of the cycled `chunks_exact(SAMPLES_PER_BLOCK)`
iterator, converted to I15 samples. -/
def brrChunk (samples : List I16) (i : Nat) : List I15Sample :=
  ((samples.drop ((i % (samples.length / SAMPLES_PER_BLOCK)) * SAMPLES_PER_BLOCK)).take
    SAMPLES_PER_BLOCK).map I15Sample.from_sample

/-- The block selection of `encode_brr`'s loop (lines 274-284): block 0 is
forced to filter 0, the loop block honours `loop_filter`, every other
block uses the full 52-candidate search. -/
def blockForIndex (fn0 fn1 fn2 fn3 : I15Sample → I15Sample → Int)
    (samples : List I16) (loop_block : Nat) (loop_filter : Option BrrFilter)
    (i : Nat) (prev1 prev2 : I15Sample) : BrrBlock :=
  let chunk := brrChunk samples i
  if i = 0 then find_best_block_filter fn0 fn1 fn2 fn3 chunk .Filter0 prev1 prev2
  else if i = loop_block then
    match loop_filter with
    | none => find_best_block_or fn0 fn1 fn2 fn3 chunk prev1 prev2
    | some f => find_best_block_filter fn0 fn1 fn2 fn3 chunk f prev1 prev2
  else find_best_block_or fn0 fn1 fn2 fn3 chunk prev1 prev2

/-- The block-emitting loop of `encode_brr` (lines 265-290), over the list
of block indices; `prev1`/`prev2` are the last two decoded samples of the
preceding block. -/
def encode_brr_loop (fn0 fn1 fn2 fn3 : I15Sample → I15Sample → Int)
    (samples : List I16) (loop_block : Nat) (loop_filter : Option BrrFilter)
    (last_block_index : Nat) (loop_flag : Bool) :
    List Nat → I15Sample → I15Sample → List Nat
  | [], _, _ => []
  | i :: rest, prev1, prev2 =>
    encode_block (blockForIndex fn0 fn1 fn2 fn3 samples loop_block loop_filter i prev1 prev2)
        (i == last_block_index) loop_flag ++
      encode_brr_loop fn0 fn1 fn2 fn3 samples loop_block loop_filter last_block_index
        loop_flag rest
        ((blockForIndex fn0 fn1 fn2 fn3 samples loop_block loop_filter i prev1
            prev2).decoded_samples.getD (SAMPLES_PER_BLOCK - 1) I15Sample.zero)
        ((blockForIndex fn0 fn1 fn2 fn3 samples loop_block loop_filter i prev1
            prev2).decoded_samples.getD (SAMPLES_PER_BLOCK - 2) I15Sample.zero)

/-- The successful tail of `encode_brr` (lines 257-299): builds all
`n_blocks` blocks and returns the `BrrSample`. -/
def encode_brr_build (fn0 fn1 fn2 fn3 : I15Sample → I15Sample → Int)
    (samples : List I16) (dupe_block_hack : Option Nat) (loop_flag : Bool)
    (loop_block : Nat) (loop_offset : Option Nat)
    (loop_filter : Option BrrFilter) : BrrSample :=
  let n_blocks := samples.length / SAMPLES_PER_BLOCK + dupe_block_hack.getD 0
  { loop_offset := loop_offset,
    brr_data := encode_brr_loop fn0 fn1 fn2 fn3 samples loop_block loop_filter
      (n_blocks - 1) loop_flag (List.range n_blocks) I15Sample.zero I15Sample.zero }

/-- `encode_brr` from `encoder.rs` (lines 203-300). -/
def encode_brr (fn0 fn1 fn2 fn3 : I15Sample → I15Sample → Int)
    (samples : List I16) (loop_offset dupe_block_hack : Option Nat)
    (loop_filter : Option BrrFilter) : Except EncodeError BrrSample :=
  if samples = [] then .error .NoSamples
  else if samples.length % SAMPLES_PER_BLOCK ≠ 0 then .error .InvalidNumberOfSamples
  else if samples.length > 65535 then .error .TooManySamples
  else
    match loop_offset, dupe_block_hack with
    | none, none =>
      .ok (encode_brr_build fn0 fn1 fn2 fn3 samples dupe_block_hack false
        usize_MAX none loop_filter)
    | some lp, none =>
      if lp % SAMPLES_PER_BLOCK ≠ 0 then .error .InvalidLoopPoint
      else if lp ≥ samples.length then .error (.LoopPointTooLarge lp samples.length)
      else
        .ok (encode_brr_build fn0 fn1 fn2 fn3 samples dupe_block_hack true
          (lp / SAMPLES_PER_BLOCK) (some (lp / SAMPLES_PER_BLOCK * BYTES_PER_BRR_BLOCK))
          loop_filter)
    | none, some dbh =>
      if dbh > 64 then .error .DupeBlockHackTooLarge
      else if loop_filter = some .Filter0 then
        .error .DupeBlockHackNotAllowedWithLoopResetsFilter
      else
        .ok (encode_brr_build fn0 fn1 fn2 fn3 samples dupe_block_hack true
          dbh (some (dbh * BYTES_PER_BRR_BLOCK)) loop_filter)
    | some _, some _ => .error .DupeBlockHackNotAllowedWithLoopPoint

/-- The error behaviour C7 states, written as the claim words it: the
validation checks in their stated order, `none` meaning success. -/
def spec_encode_error (samples : List I16) (loop_offset dupe_block_hack : Option Nat)
    (loop_filter : Option BrrFilter) : Option EncodeError :=
  if samples = [] then some .NoSamples
  else if samples.length % SAMPLES_PER_BLOCK ≠ 0 then some .InvalidNumberOfSamples
  else if samples.length > 65535 then some .TooManySamples
  else
    match loop_offset, dupe_block_hack with
    | none, none => none
    | some lp, none =>
      if lp % SAMPLES_PER_BLOCK ≠ 0 then some .InvalidLoopPoint
      else if lp ≥ samples.length then some (.LoopPointTooLarge lp samples.length)
      else none
    | none, some dbh =>
      if dbh > 64 then some .DupeBlockHackTooLarge
      else if loop_filter = some .Filter0 then
        some .DupeBlockHackNotAllowedWithLoopResetsFilter
      else none
    | some _, some _ => some .DupeBlockHackNotAllowedWithLoopPoint

end Tad

/-- C1: for every 16-sample block, shift in 0..=12, filter function and
previous decoded samples, `build_block` emits at position `i` the nibble
`clamp(((s − offset) << 1) / 2^shift, −8, +7)` computed with truncating
division and stores the decoded sample
`wrap_and_clip(((n << shift) >> 1) + offset)`, where `offset` is the
filter applied to the predictor state threaded by `(p2, p1) ← (p1, d)`;
i.e. the loop realises the spec's per-sample recurrence at every index. -/
theorem C1_build_block_follows_spec
    (filter_fn : Tad.I15Sample → Tad.I15Sample → Int)
    (samples : List Tad.I15Sample) (shift : Nat) (filter : Tad.BrrFilter)
    (p1 p2 : Tad.I15Sample)
    (hshift : shift ≤ Tad.MAX_SHIFT) (hlen : samples.length = 16)
    (i : Nat) (hi : i < 16) :
    (Tad.build_block filter_fn samples shift filter p1 p2).nibbles.getD i 0 =
      Tad.spec_nibble filter_fn shift samples p1 p2 i ∧
    (Tad.build_block filter_fn samples shift filter p1 p2).decoded_samples.getD
        i Tad.I15Sample.zero =
      Tad.spec_decoded filter_fn shift samples p1 p2 i := by
  have hlt : i < samples.length := by rw [hlen]; exact hi
  exact Tad.blockLoop_getD filter_fn shift samples p1 p2 i hlt

/-- C1 witness: the theorem applied at a concrete block (all-zero samples,
shift 4, filter 0, zero predictor state, index 3). -/
theorem C1_build_block_follows_spec_witness :
    (4 ≤ Tad.MAX_SHIFT ∧ (List.replicate 16 Tad.I15Sample.zero).length = 16 ∧
      (3 : Nat) < 16) ∧
    ((Tad.build_block (fun _ _ => 0) (List.replicate 16 Tad.I15Sample.zero) 4
        Tad.BrrFilter.Filter0 Tad.I15Sample.zero Tad.I15Sample.zero).nibbles.getD 3 0 =
      Tad.spec_nibble (fun _ _ => 0) 4 (List.replicate 16 Tad.I15Sample.zero)
        Tad.I15Sample.zero Tad.I15Sample.zero 3 ∧
    (Tad.build_block (fun _ _ => 0) (List.replicate 16 Tad.I15Sample.zero) 4
        Tad.BrrFilter.Filter0 Tad.I15Sample.zero
        Tad.I15Sample.zero).decoded_samples.getD 3 Tad.I15Sample.zero =
      Tad.spec_decoded (fun _ _ => 0) 4 (List.replicate 16 Tad.I15Sample.zero)
        Tad.I15Sample.zero Tad.I15Sample.zero 3) :=
  ⟨⟨by decide, by decide, by decide⟩,
    C1_build_block_follows_spec (fun _ _ => 0) (List.replicate 16 Tad.I15Sample.zero)
      4 Tad.BrrFilter.Filter0 Tad.I15Sample.zero Tad.I15Sample.zero
      (by decide) (by decide) 3 (by decide)⟩

/-- C2: for every 16-sample block and previous decoded samples,
`find_best_block` evaluates all 52 (filter, shift) combinations with
filters 0..3 and shifts 0..=12 and returns a block whose sum of squared
errors is minimal over all 52 candidates; on ties the candidate
encountered first in filter-then-shift enumeration order is returned. -/
theorem C2_find_best_block_minimal
    (fn0 fn1 fn2 fn3 : Tad.I15Sample → Tad.I15Sample → Int)
    (samples : List Tad.I15Sample) (p1 p2 : Tad.I15Sample)
    (hlen : samples.length = 16) :
    Tad.find_best_block_is_first_min fn0 fn1 fn2 fn3 samples p1 p2 := by
  have hlen52 : (Tad.fbb_candidates fn0 fn1 fn2 fn3 samples p1 p2).length = 52 := by
    simp [Tad.fbb_candidates, Tad.MAX_SHIFT]
  refine ⟨hlen52, ?_⟩
  rcases hL : Tad.fbb_candidates fn0 fn1 fn2 fn3 samples p1 p2 with _ | ⟨c0, rest⟩
  · rw [hL] at hlen52; simp at hlen52
  have hx : Tad.calc_squared_error c0 samples < Tad.i64_MAX :=
    Tad.calc_squared_error_lt_i64_MAX c0 samples hlen
  have hfold : Tad.find_best_block fn0 fn1 fn2 fn3 samples p1 p2 =
      some (Tad.pickFirst (fun b => Tad.calc_squared_error b samples) c0 rest) := by
    unfold Tad.find_best_block
    rw [hL, Tad.minFold_cons (fun b => Tad.calc_squared_error b samples) c0 rest
      Tad.i64_MAX hx]
  obtain ⟨l1, l2, heq, hmin, hstrict⟩ :=
    Tad.pickFirst_spec (fun b => Tad.calc_squared_error b samples) rest c0
  refine ⟨Tad.pickFirst (fun b => Tad.calc_squared_error b samples) c0 rest, l1, l2,
    hfold, ?_, ?_, hstrict⟩
  · exact heq
  · intro c hc
    exact hmin c hc

/-- C2 witness: the theorem applied at the all-zero 16-sample block with
all four filter functions constantly zero. -/
theorem C2_find_best_block_minimal_witness :
    (List.replicate 16 Tad.I15Sample.zero).length = 16 ∧
    Tad.find_best_block_is_first_min (fun _ _ => 0) (fun _ _ => 0) (fun _ _ => 0)
      (fun _ _ => 0) (List.replicate 16 Tad.I15Sample.zero)
      Tad.I15Sample.zero Tad.I15Sample.zero :=
  ⟨by decide,
    C2_find_best_block_minimal (fun _ _ => 0) (fun _ _ => 0) (fun _ _ => 0)
      (fun _ _ => 0) (List.replicate 16 Tad.I15Sample.zero)
      Tad.I15Sample.zero Tad.I15Sample.zero (by decide)⟩

namespace Tad

lemma encode_block_length (b : BrrBlock) (e l : Bool) :
    (encode_block b e l).length = 9 := by
  simp [encode_block]

lemma encode_brr_loop_length (fn0 fn1 fn2 fn3 : I15Sample → I15Sample → Int)
    (samples : List I16) (loop_block : Nat) (lf : Option BrrFilter)
    (last : Nat) (loop_flag : Bool) :
    ∀ (l : List Nat) (p1 p2 : I15Sample),
      (encode_brr_loop fn0 fn1 fn2 fn3 samples loop_block lf last loop_flag l p1 p2).length =
        9 * l.length := by
  intro l
  induction l with
  | nil => intro p1 p2; simp [encode_brr_loop]
  | cons i rest ih =>
    intro p1 p2
    simp only [encode_brr_loop, List.length_append, encode_block_length, ih,
      List.length_cons]
    ring

lemma encode_brr_loop_append (fn0 fn1 fn2 fn3 : I15Sample → I15Sample → Int)
    (samples : List I16) (loop_block : Nat) (lf : Option BrrFilter)
    (last : Nat) (loop_flag : Bool) :
    ∀ (l1 l2 : List Nat) (p1 p2 : I15Sample),
      ∃ q1 q2,
        encode_brr_loop fn0 fn1 fn2 fn3 samples loop_block lf last loop_flag
            (l1 ++ l2) p1 p2 =
          encode_brr_loop fn0 fn1 fn2 fn3 samples loop_block lf last loop_flag l1 p1 p2 ++
          encode_brr_loop fn0 fn1 fn2 fn3 samples loop_block lf last loop_flag l2 q1 q2 := by
  intro l1
  induction l1 with
  | nil => intro l2 p1 p2; exact ⟨p1, p2, by simp [encode_brr_loop]⟩
  | cons i rest ih =>
    intro l2 p1 p2
    obtain ⟨q1, q2, h⟩ := ih l2
      ((blockForIndex fn0 fn1 fn2 fn3 samples loop_block lf i p1 p2).decoded_samples.getD
        (SAMPLES_PER_BLOCK - 1) I15Sample.zero)
      ((blockForIndex fn0 fn1 fn2 fn3 samples loop_block lf i p1 p2).decoded_samples.getD
        (SAMPLES_PER_BLOCK - 2) I15Sample.zero)
    refine ⟨q1, q2, ?_⟩
    simp only [List.cons_append, encode_brr_loop, List.append_eq]
    rw [h, List.append_assoc]

end Tad

/-- C7: `encode_brr` returns its errors as values and fails exactly as
the claim's ordered checks state: `NoSamples` iff the input is empty,
then `InvalidNumberOfSamples` iff the count is not a multiple of 16, then
`TooManySamples` iff above 65535; with a loop point: `InvalidLoopPoint`
iff not a multiple of 16, `LoopPointTooLarge` iff at or past the end;
with both loop point and dupe-block-hack: `DupeBlockHackNotAllowedWithLoopPoint`;
with only a dupe-block-hack: `DupeBlockHackTooLarge` iff above 64, then
`DupeBlockHackNotAllowedWithLoopResetsFilter` iff the loop filter is
filter 0; `Ok` in all remaining cases. -/
theorem C7_encode_brr_error_conditions
    (fn0 fn1 fn2 fn3 : Tad.I15Sample → Tad.I15Sample → Int)
    (samples : List Tad.I16) (lp dbh : Option Nat) (lf : Option Tad.BrrFilter) :
    (∀ e, Tad.encode_brr fn0 fn1 fn2 fn3 samples lp dbh lf = .error e ↔
      Tad.spec_encode_error samples lp dbh lf = some e) ∧
    ((∃ s, Tad.encode_brr fn0 fn1 fn2 fn3 samples lp dbh lf = .ok s) ↔
      Tad.spec_encode_error samples lp dbh lf = none) := by
  unfold Tad.encode_brr Tad.spec_encode_error
  rcases lp with _ | l <;> rcases dbh with _ | d <;> dsimp only [] <;> split_ifs <;>
    constructor <;> (try intro e) <;> simp_all

/-- C10: for every valid sample buffer (non-empty, multiple of 16, at
most 65535 samples) with no loop point, `encode_brr` accepts
`dupe_block_hack = Some(0)`: it returns `Ok`, appends zero duplicated
blocks (the output is exactly `samples/16` blocks of 9 bytes), sets
`loop_offset` to `Some(0)`, and sets both the end flag and the loop flag
on the final block's header. -/
theorem C10_encode_brr_dupe_block_hack_zero
    (fn0 fn1 fn2 fn3 : Tad.I15Sample → Tad.I15Sample → Int)
    (samples : List Tad.I16) (lf : Option Tad.BrrFilter)
    (h1 : samples ≠ []) (h2 : samples.length % Tad.SAMPLES_PER_BLOCK = 0)
    (h3 : samples.length ≤ 65535) (h4 : lf ≠ some Tad.BrrFilter.Filter0) :
    ∃ s, Tad.encode_brr fn0 fn1 fn2 fn3 samples none (some 0) lf = .ok s ∧
      s.brr_data.length =
        samples.length / Tad.SAMPLES_PER_BLOCK * Tad.BYTES_PER_BRR_BLOCK ∧
      s.loop_offset = some 0 ∧
      (s.brr_data.getD
        ((samples.length / Tad.SAMPLES_PER_BLOCK - 1) * Tad.BYTES_PER_BRR_BLOCK)
        0).testBit 0 = true ∧
      (s.brr_data.getD
        ((samples.length / Tad.SAMPLES_PER_BLOCK - 1) * Tad.BYTES_PER_BRR_BLOCK)
        0).testBit 1 = true := by
  have hh3 : ¬ samples.length > 65535 := not_lt.mpr h3
  have hok : Tad.encode_brr fn0 fn1 fn2 fn3 samples none (some 0) lf =
      .ok (Tad.encode_brr_build fn0 fn1 fn2 fn3 samples (some 0) true 0
        (some (0 * Tad.BYTES_PER_BRR_BLOCK)) lf) := by
    simp [Tad.encode_brr, h1, h2, hh3, h4]
  refine ⟨_, hok, ?_, ?_, ?_⟩
  · show (Tad.encode_brr_build fn0 fn1 fn2 fn3 samples (some 0) true 0
        (some (0 * Tad.BYTES_PER_BRR_BLOCK)) lf).brr_data.length = _
    unfold Tad.encode_brr_build
    rw [Tad.encode_brr_loop_length, List.length_range]
    simp [Tad.BYTES_PER_BRR_BLOCK, Nat.mul_comm]
  · simp [Tad.encode_brr_build]
  · -- the final block's header carries both flags
    have hn : 1 ≤ samples.length / Tad.SAMPLES_PER_BLOCK := by
      have hlen : samples.length ≠ 0 := fun h => h1 (List.eq_nil_of_length_eq_zero h)
      have h16 : Tad.SAMPLES_PER_BLOCK ∣ samples.length := Nat.dvd_of_mod_eq_zero h2
      rw [Nat.one_le_div_iff (by decide : 0 < Tad.SAMPLES_PER_BLOCK)]
      exact Nat.le_of_dvd (Nat.pos_of_ne_zero hlen) h16
    obtain ⟨k, hk⟩ : ∃ k, samples.length / Tad.SAMPLES_PER_BLOCK = k + 1 :=
      ⟨samples.length / Tad.SAMPLES_PER_BLOCK - 1, by omega⟩
    show _ ∧ _
    unfold Tad.encode_brr_build
    simp only [Option.getD_some, Nat.add_zero, hk, Nat.add_sub_cancel]
    obtain ⟨q1, q2, happ⟩ := Tad.encode_brr_loop_append fn0 fn1 fn2 fn3 samples 0 lf
      k true (List.range k) [k] Tad.I15Sample.zero Tad.I15Sample.zero
    rw [List.range_succ, happ]
    have hplen : (Tad.encode_brr_loop fn0 fn1 fn2 fn3 samples 0 lf k true
        (List.range k) Tad.I15Sample.zero Tad.I15Sample.zero).length = 9 * k := by
      rw [Tad.encode_brr_loop_length, List.length_range]
    have hle : (Tad.encode_brr_loop fn0 fn1 fn2 fn3 samples 0 lf k true
        (List.range k) Tad.I15Sample.zero Tad.I15Sample.zero).length ≤
        k * Tad.BYTES_PER_BRR_BLOCK := by
      rw [hplen]
      simp [Tad.BYTES_PER_BRR_BLOCK, Nat.mul_comm]
    rw [List.getD_append_right _ _ _ _ hle]
    have hidx : k * Tad.BYTES_PER_BRR_BLOCK -
        (Tad.encode_brr_loop fn0 fn1 fn2 fn3 samples 0 lf k true
          (List.range k) Tad.I15Sample.zero Tad.I15Sample.zero).length = 0 := by
      rw [hplen]
      simp [Tad.BYTES_PER_BRR_BLOCK, Nat.mul_comm]
    rw [hidx]
    simp only [Tad.encode_brr_loop, beq_self_eq_true, List.append_nil]
    simp only [Tad.encode_block, if_true, List.getD_cons_zero]
    constructor
    · simp [Tad.BRR_HEADER_END_FLAG, Tad.BRR_HEADER_LOOP_FLAG, Nat.testBit_or]
    · simp only [Tad.BRR_HEADER_END_FLAG, Tad.BRR_HEADER_LOOP_FLAG, Nat.testBit_or]
      simp only [Bool.or_eq_true]
      right
      decide

/-- C10 witness: the theorem applied at a concrete 16-sample buffer of
zeros, no loop filter, all filter functions constantly zero. -/
theorem C10_encode_brr_dupe_block_hack_zero_witness :
    ((List.replicate 16 (⟨0, by decide⟩ : Tad.I16)) ≠ [] ∧
      (List.replicate 16 (⟨0, by decide⟩ : Tad.I16)).length %
        Tad.SAMPLES_PER_BLOCK = 0 ∧
      (List.replicate 16 (⟨0, by decide⟩ : Tad.I16)).length ≤ 65535 ∧
      (none : Option Tad.BrrFilter) ≠ some Tad.BrrFilter.Filter0) ∧
    (∃ s, Tad.encode_brr (fun _ _ => 0) (fun _ _ => 0) (fun _ _ => 0) (fun _ _ => 0)
        (List.replicate 16 (⟨0, by decide⟩ : Tad.I16)) none (some 0) none = .ok s ∧
      s.brr_data.length =
        (List.replicate 16 (⟨0, by decide⟩ : Tad.I16)).length /
          Tad.SAMPLES_PER_BLOCK * Tad.BYTES_PER_BRR_BLOCK ∧
      s.loop_offset = some 0 ∧
      (s.brr_data.getD
        (((List.replicate 16 (⟨0, by decide⟩ : Tad.I16)).length /
            Tad.SAMPLES_PER_BLOCK - 1) * Tad.BYTES_PER_BRR_BLOCK)
        0).testBit 0 = true ∧
      (s.brr_data.getD
        (((List.replicate 16 (⟨0, by decide⟩ : Tad.I16)).length /
            Tad.SAMPLES_PER_BLOCK - 1) * Tad.BYTES_PER_BRR_BLOCK)
        0).testBit 1 = true) :=
  ⟨⟨by decide, by decide, by decide, by decide⟩,
    C10_encode_brr_dupe_block_hack_zero (fun _ _ => 0) (fun _ _ => 0) (fun _ _ => 0)
      (fun _ _ => 0) (List.replicate 16 (⟨0, by decide⟩ : Tad.I16)) none
      (by decide) (by decide) (by decide) (by decide)⟩

namespace Tad

/-! ### TickCounter (compiler/src/time.rs) -/

/-- `TickCounter` from `time.rs`: a `u32` tick count. -/
structure TickCounter : Type where
  value : Nat
deriving DecidableEq

/-- `impl Add for TickCounter` (`time.rs` lines 34-42): the source computes
`self.value + b.value` with plain `u32` addition, which wraps modulo 2^32
in release builds (and panics in debug builds); it does not saturate. -/
def TickCounter.add (a b : TickCounter) : TickCounter :=
  ⟨(a.value + b.value) % 2 ^ 32⟩

/-- `u32::MAX`. -/
def u32_MAX : Nat := 2 ^ 32 - 1

end Tad

/-- C8 counterexample: the claim says `(a + b).value()` equals
`min(a.value() + b.value(), u32::MAX)`; at `a = b = 2^31` the code wraps
to 0 while the claimed saturating sum is `u32::MAX`. -/
theorem C8_counterexample :
    ¬ ((Tad.TickCounter.add ⟨2 ^ 31⟩ ⟨2 ^ 31⟩).value =
        min ((⟨2 ^ 31⟩ : Tad.TickCounter).value + (⟨2 ^ 31⟩ : Tad.TickCounter).value)
          Tad.u32_MAX) := by
  decide

/-- C8 (amended): `TickCounter` addition is plain `u32` addition, wrapping
modulo 2^32; whenever the mathematical sum fits in a `u32` the result is
the exact sum, so the counter is monotone non-decreasing absent overflow. -/
theorem C8_tick_counter_add_exact (a b : Tad.TickCounter)
    (h : a.value + b.value < 2 ^ 32) :
    (Tad.TickCounter.add a b).value = a.value + b.value ∧
    a.value ≤ (Tad.TickCounter.add a b).value := by
  have he : (Tad.TickCounter.add a b).value = a.value + b.value := Nat.mod_eq_of_lt h
  exact ⟨he, by omega⟩

/-- C8 witness: the amended theorem at `a = 1`, `b = 2`. -/
theorem C8_tick_counter_add_exact_witness :
    ((⟨1⟩ : Tad.TickCounter).value + (⟨2⟩ : Tad.TickCounter).value < 2 ^ 32) ∧
    ((Tad.TickCounter.add ⟨1⟩ ⟨2⟩).value =
        (⟨1⟩ : Tad.TickCounter).value + (⟨2⟩ : Tad.TickCounter).value ∧
      (⟨1⟩ : Tad.TickCounter).value ≤ (Tad.TickCounter.add ⟨1⟩ ⟨2⟩).value) :=
  ⟨by decide, C8_tick_counter_add_exact ⟨1⟩ ⟨2⟩ (by decide)⟩

namespace Tad

/-! ### split_play_note_length (compiler/src/mml/bc_generator.rs lines 195-230) -/

/-- `BcTicksNoKeyOff::MIN`; modelled from the spec (`bytecode.rs` is not
in the provided sources).  Pinned by the `const` assert
`BcTicksNoKeyOff::MIN == 1` in `bc_generator.rs` and the comment in
`tests/mml.rs`: "`rest` can rest for 1 to 256 ticks". -/
def BcTicksNoKeyOff.MIN : Nat := 1

/-- `BcTicksNoKeyOff::MAX` (256); same provenance. -/
def BcTicksNoKeyOff.MAX : Nat := 256

/-- `BcTicksKeyOff::MIN` (2); pinned by `tests/mml.rs` ("`rest_keyoff` can
rest for 2 to 257 tick") and the asserts `MIN_FINAL_REST > 1`,
`BcTicksKeyOff::MAX > BcTicksNoKeyOff::MAX` in `bc_generator.rs`. -/
def BcTicksKeyOff.MIN : Nat := 2

/-- `BcTicksKeyOff::MAX` (257); same provenance. -/
def BcTicksKeyOff.MAX : Nat := 257

/-- The two `BcTicks` range errors of `ValueError` relevant here
(`errors.rs` is not in the provided sources; variants modelled from the
`try_from` uses in `bc_generator.rs`). -/
inductive ValueError : Type
  | BcTicksKeyOffOutOfRange
  | BcTicksNoKeyOffOutOfRange
deriving DecidableEq

/-- `PlayNoteTicks` (`bytecode.rs`, not in the provided sources): the tick
count of a play_note instruction, with or without a key-off. -/
inductive PlayNoteTicks : Type
  | KeyOff (t : Nat)
  | NoKeyOff (t : Nat)
deriving DecidableEq

/-- `BcTicksKeyOff::try_from`: accepts `MIN ..= MAX`. -/
def BcTicksKeyOff.try_from (l : Nat) : Except ValueError Nat :=
  if BcTicksKeyOff.MIN ≤ l ∧ l ≤ BcTicksKeyOff.MAX then .ok l
  else .error .BcTicksKeyOffOutOfRange

/-- `BcTicksNoKeyOff::try_from`: accepts `MIN ..= MAX`. -/
def BcTicksNoKeyOff.try_from (l : Nat) : Except ValueError Nat :=
  if BcTicksNoKeyOff.MIN ≤ l ∧ l ≤ BcTicksNoKeyOff.MAX then .ok l
  else .error .BcTicksNoKeyOffOutOfRange

/-- `split_play_note_length` from `bc_generator.rs` (lines 195-230). -/
def split_play_note_length (length : Nat) (is_slur : Bool) :
    Except ValueError (PlayNoteTicks × Nat) :=
  if is_slur = false ∧ length ≤ BcTicksKeyOff.MAX then
    match BcTicksKeyOff.try_from length with
    | .ok t => .ok (.KeyOff t, 0)
    | .error e => .error e
  else
    let last_min := if is_slur then BcTicksNoKeyOff.MIN else BcTicksKeyOff.MIN
    let pn :=
      if length ≤ BcTicksNoKeyOff.MAX then length
      else if length ≥ BcTicksNoKeyOff.MAX + last_min then BcTicksNoKeyOff.MAX
      else BcTicksNoKeyOff.MAX - 1
    match BcTicksNoKeyOff.try_from pn with
    | .ok t => .ok (.NoKeyOff t, length - pn)
    | .error e => .error e

/-- The four-case split exactly as the claim and spec §4.3.1 word it. -/
def spec_split_play_note (length : Nat) (is_slur : Bool) : PlayNoteTicks × Nat :=
  if is_slur = false ∧ length ≤ BcTicksKeyOff.MAX then (.KeyOff length, 0)
  else if length ≤ BcTicksNoKeyOff.MAX then (.NoKeyOff length, 0)
  else if length ≥ BcTicksNoKeyOff.MAX +
      (if is_slur then BcTicksNoKeyOff.MIN else BcTicksKeyOff.MIN) then
    (.NoKeyOff BcTicksNoKeyOff.MAX, length - BcTicksNoKeyOff.MAX)
  else
    (.NoKeyOff (BcTicksNoKeyOff.MAX - 1), length - (BcTicksNoKeyOff.MAX - 1))

end Tad

/-- C5 counterexample: the claim states the four-case split for every
requested note length; at `L = 1` with no slur the first case would
return a key-off play_note of length 1, but the code returns a range
error because `BcTicksKeyOff::MIN = 2`. -/
theorem C5_counterexample :
    Tad.split_play_note_length 1 false =
      .error Tad.ValueError.BcTicksKeyOffOutOfRange ∧
    Tad.spec_split_play_note 1 false = (Tad.PlayNoteTicks.KeyOff 1, 0) ∧
    Tad.split_play_note_length 1 false ≠ .ok (Tad.spec_split_play_note 1 false) := by
  have h1 : Tad.split_play_note_length 1 false =
      .error Tad.ValueError.BcTicksKeyOffOutOfRange := rfl
  refine ⟨h1, by decide, ?_⟩
  intro hcontra
  rw [h1] at hcontra
  exact Except.noConfusion hcontra

/-- C5 (amended): for every note length of at least `BcTicksKeyOff::MIN`
when a key-off is required (at least `BcTicksNoKeyOff::MIN` when
slurred), `split_play_note_length` returns exactly the spec's four-case
split, and whenever a key-off is required and the remainder is nonzero
the remainder is at least `BcTicksKeyOff::MIN`. -/
theorem C5_split_play_note_length (length : Nat) (is_slur : Bool)
    (h : (if is_slur then Tad.BcTicksNoKeyOff.MIN else Tad.BcTicksKeyOff.MIN) ≤ length) :
    Tad.split_play_note_length length is_slur =
      .ok (Tad.spec_split_play_note length is_slur) ∧
    (is_slur = false → (Tad.spec_split_play_note length is_slur).2 ≠ 0 →
      Tad.BcTicksKeyOff.MIN ≤ (Tad.spec_split_play_note length is_slur).2) := by
  unfold Tad.BcTicksNoKeyOff.MIN Tad.BcTicksKeyOff.MIN at h
  unfold Tad.split_play_note_length Tad.spec_split_play_note
    Tad.BcTicksKeyOff.try_from Tad.BcTicksNoKeyOff.try_from
    Tad.BcTicksNoKeyOff.MIN Tad.BcTicksNoKeyOff.MAX
    Tad.BcTicksKeyOff.MIN Tad.BcTicksKeyOff.MAX
  cases is_slur <;>
    simp only [Bool.false_eq_true, Bool.true_eq_false, ite_true, ite_false,
      false_and, true_and, and_false, and_true, not_false_iff, if_true, if_false] at h ⊢ <;>
    split_ifs <;>
    constructor <;> intros <;> simp_all <;> omega

/-- C5 witness: the amended theorem at `L = 600`, not slurred (the long
split: `play_note NoKeyOff 256` and a 344-tick remainder). -/
theorem C5_split_play_note_length_witness :
    ((if false then Tad.BcTicksNoKeyOff.MIN else Tad.BcTicksKeyOff.MIN) ≤ 600) ∧
    (Tad.split_play_note_length 600 false =
        .ok (Tad.spec_split_play_note 600 false) ∧
      (false = false → (Tad.spec_split_play_note 600 false).2 ≠ 0 →
        Tad.BcTicksKeyOff.MIN ≤ (Tad.spec_split_play_note 600 false).2)) :=
  ⟨by decide, C5_split_play_note_length 600 false (by decide)⟩

namespace Tad

/-! ### build_rest_loop (compiler/src/mml/bc_generator.rs lines 42-87) -/

/-- `LoopCount::MIN` (2); modelled from the spec (`bytecode.rs` is not in
the provided sources): a loop body must repeat, spec §4.3.6 requires
`n_loops ≥ 2`. -/
def LoopCount.MIN : Nat := 2

/-- `LoopCount::MAX` (256); modelled from the spec ("Loop counters use a
single byte (1-255; 0 means 256)"); `tests/mml.rs` uses `start_loop 256`. -/
def LoopCount.MAX : Nat := 256

/-- `div_ceiling` from `bc_generator.rs` (line 54). -/
def div_ceiling (a b : Nat) : Nat := (a + b - 1) / b

/-- `RestLoop` from `bc_generator.rs` (lines 44-52). -/
structure RestLoop : Type where
  ticks_in_loop : Nat
  n_loops : Nat
  remainder : Nat
  n_rest_instructions : Nat
deriving DecidableEq

/-- `build_rest_loop` from `bc_generator.rs` (lines 58-87), generic over
`Loop::MIN/MAX`, `Rem::MIN/MAX` and `ALLOW_ZERO_REM`:
`(LoopCount::MIN..=LoopCount::MAX).filter_map(..).min_by_key(..)`.
Rust's `min_by_key` keeps the first minimum, as does `List.argmin`; the
`.unwrap()` is the `Option`. -/
def build_rest_loop (loopMin loopMax remMin remMax : Nat) (allow_zero_rem : Bool)
    (ticks : Nat) : Option RestLoop :=
  ((List.range' LoopCount.MIN (LoopCount.MAX - LoopCount.MIN + 1)).filterMap (fun l =>
    if loopMin ≤ ticks / l ∧
        ((allow_zero_rem = true ∧ ticks % l = 0) ∨ remMin ≤ ticks % l) then
      some (⟨ticks / l, l, ticks % l,
        div_ceiling (ticks / l) loopMax + div_ceiling (ticks % l) remMax⟩ : RestLoop)
    else none)).argmin (fun rl => rl.n_rest_instructions)

/-- Feasibility of a loop count `l` for `build_rest_loop`: in the
enumerated range, the body long enough, and the remainder zero (where
permitted) or at least the tail minimum. -/
def rest_loop_feasible (loopMin remMin : Nat) (allow_zero_rem : Bool)
    (ticks l : Nat) : Prop :=
  LoopCount.MIN ≤ l ∧ l ≤ LoopCount.MAX ∧ loopMin ≤ ticks / l ∧
    ((allow_zero_rem = true ∧ ticks % l = 0) ∨ remMin ≤ ticks % l)

/-- What C6 asserts of one instantiation of `build_rest_loop` at `ticks`:
it returns a feasible triple with the stated fields whose rest-instruction
count is at most that of every feasible choice. -/
def build_rest_loop_optimal_at (loopMin loopMax remMin remMax : Nat)
    (allow_zero_rem : Bool) (ticks : Nat) : Prop :=
  ∃ rl, build_rest_loop loopMin loopMax remMin remMax allow_zero_rem ticks = some rl ∧
    rest_loop_feasible loopMin remMin allow_zero_rem ticks rl.n_loops ∧
    rl.ticks_in_loop = ticks / rl.n_loops ∧
    rl.remainder = ticks % rl.n_loops ∧
    rl.n_rest_instructions =
      div_ceiling rl.ticks_in_loop loopMax + div_ceiling rl.remainder remMax ∧
    ∀ l, rest_loop_feasible loopMin remMin allow_zero_rem ticks l →
      rl.n_rest_instructions ≤
        div_ceiling (ticks / l) loopMax + div_ceiling (ticks % l) remMax

lemma build_rest_loop_spec (loopMin loopMax remMin remMax : Nat)
    (allow_zero_rem : Bool) (ticks l₀ : Nat)
    (hfeas : rest_loop_feasible loopMin remMin allow_zero_rem ticks l₀) :
    build_rest_loop_optimal_at loopMin loopMax remMin remMax allow_zero_rem ticks := by
  obtain ⟨hmin0, hmax0, hdiv0, hrem0⟩ := hfeas
  have hmem0 : l₀ ∈ List.range' LoopCount.MIN (LoopCount.MAX - LoopCount.MIN + 1) := by
    rw [List.mem_range'_1]
    unfold LoopCount.MIN at hmin0
    unfold LoopCount.MAX at hmax0
    unfold LoopCount.MIN LoopCount.MAX
    omega
  have hcand : ∀ l, rest_loop_feasible loopMin remMin allow_zero_rem ticks l →
      (⟨ticks / l, l, ticks % l,
        div_ceiling (ticks / l) loopMax + div_ceiling (ticks % l) remMax⟩ : RestLoop) ∈
      (List.range' LoopCount.MIN (LoopCount.MAX - LoopCount.MIN + 1)).filterMap (fun l =>
        if loopMin ≤ ticks / l ∧
            ((allow_zero_rem = true ∧ ticks % l = 0) ∨ remMin ≤ ticks % l) then
          some (⟨ticks / l, l, ticks % l,
            div_ceiling (ticks / l) loopMax + div_ceiling (ticks % l) remMax⟩ : RestLoop)
        else none) := by
    intro l hf
    obtain ⟨ha, hb, hc, hd⟩ := hf
    refine List.mem_filterMap.mpr ⟨l, ?_, ?_⟩
    · rw [List.mem_range'_1]
      unfold LoopCount.MIN at ha
      unfold LoopCount.MAX at hb
      unfold LoopCount.MIN LoopCount.MAX
      omega
    · rw [if_pos ⟨hc, hd⟩]
  have hne : (List.range' LoopCount.MIN (LoopCount.MAX - LoopCount.MIN + 1)).filterMap
      (fun l =>
        if loopMin ≤ ticks / l ∧
            ((allow_zero_rem = true ∧ ticks % l = 0) ∨ remMin ≤ ticks % l) then
          some (⟨ticks / l, l, ticks % l,
            div_ceiling (ticks / l) loopMax + div_ceiling (ticks % l) remMax⟩ : RestLoop)
        else none) ≠ [] :=
    List.ne_nil_of_mem (hcand l₀ ⟨hmin0, hmax0, hdiv0, hrem0⟩)
  rcases hres : build_rest_loop loopMin loopMax remMin remMax allow_zero_rem ticks with
    _ | rl
  · exact absurd (List.argmin_eq_none.mp hres) hne
  have hrlmem : rl ∈ _ := List.argmin_mem hres
  obtain ⟨l, hlmem, hleq⟩ := List.mem_filterMap.mp hrlmem
  rw [List.mem_range'_1] at hlmem
  by_cases hcond : loopMin ≤ ticks / l ∧
      ((allow_zero_rem = true ∧ ticks % l = 0) ∨ remMin ≤ ticks % l)
  · rw [if_pos hcond] at hleq
    have hrl := (Option.some.injEq _ _).mp hleq
    subst hrl
    refine ⟨_, hres, ⟨hlmem.1, ?_, hcond.1, hcond.2⟩, rfl, rfl, rfl, ?_⟩
    · show l ≤ LoopCount.MAX
      have hl2 := hlmem.2
      unfold LoopCount.MIN LoopCount.MAX at hl2
      unfold LoopCount.MAX
      omega
    · intro l' hf
      have := List.le_of_mem_argmin (hcand l' hf) hres
      exact this
  · rw [if_neg hcond] at hleq
    exact Option.noConfusion hleq

lemma mod_le_one_dvd_mul (t m : Nat) (h2 : 2 ≤ t) (hm : 0 < m)
    (h : t % m ≤ 1) : m ∣ t * (t - 1) := by
  rcases Nat.lt_or_ge (t % m) 1 with h0 | h1
  · have : t % m = 0 := by omega
    exact Dvd.dvd.mul_right (Nat.dvd_of_mod_eq_zero this) _
  · have hmod : t % m = 1 := by omega
    have hdecomp := Nat.div_add_mod t m
    refine Dvd.dvd.mul_left ⟨t / m, ?_⟩ _
    omega

lemma exists_modulus_rem_ge_two (t : Nat) (h2 : 2 ≤ t) (hlt : t < 2 ^ 32) :
    ∃ l, 2 ≤ l ∧ l ≤ 256 ∧ 2 ≤ t % l := by
  by_contra hcon
  push_neg at hcon
  have key : ∀ m, 2 ≤ m → m ≤ 256 → m ∣ t * (t - 1) := by
    intro m hma hmb
    have := hcon m hma hmb
    exact mod_le_one_dvd_mul t m h2 (by omega) (by omega)
  have d1 : (256 : Nat) ∣ t * (t - 1) := key 256 (by norm_num) (by norm_num)
  have d2 : (255 : Nat) ∣ t * (t - 1) := key 255 (by norm_num) (by norm_num)
  have d3 : (253 : Nat) ∣ t * (t - 1) := key 253 (by norm_num) (by norm_num)
  have d4 : (251 : Nat) ∣ t * (t - 1) := key 251 (by norm_num) (by norm_num)
  have d5 : (247 : Nat) ∣ t * (t - 1) := key 247 (by norm_num) (by norm_num)
  have d6 : (241 : Nat) ∣ t * (t - 1) := key 241 (by norm_num) (by norm_num)
  have d7 : (239 : Nat) ∣ t * (t - 1) := key 239 (by norm_num) (by norm_num)
  have d8 : (233 : Nat) ∣ t * (t - 1) := key 233 (by norm_num) (by norm_num)
  have d9 : (229 : Nat) ∣ t * (t - 1) := key 229 (by norm_num) (by norm_num)
  have c2 : Nat.Coprime 256 255 := by decide
  have c3 : Nat.Coprime (256 * 255) 253 := by decide
  have c4 : Nat.Coprime (256 * 255 * 253) 251 := by decide
  have c5 : Nat.Coprime (256 * 255 * 253 * 251) 247 := by decide
  have c6 : Nat.Coprime (256 * 255 * 253 * 251 * 247) 241 := by decide
  have c7 : Nat.Coprime (256 * 255 * 253 * 251 * 247 * 241) 239 := by decide
  have c8 : Nat.Coprime (256 * 255 * 253 * 251 * 247 * 241 * 239) 233 := by decide
  have c9 : Nat.Coprime (256 * 255 * 253 * 251 * 247 * 241 * 239 * 233) 229 := by decide
  have p2 : (256 * 255 : Nat) ∣ t * (t - 1) := c2.mul_dvd_of_dvd_of_dvd d1 d2
  have p3 : (256 * 255 * 253 : Nat) ∣ t * (t - 1) := c3.mul_dvd_of_dvd_of_dvd p2 d3
  have p4 : (256 * 255 * 253 * 251 : Nat) ∣ t * (t - 1) := c4.mul_dvd_of_dvd_of_dvd p3 d4
  have p5 : (256 * 255 * 253 * 251 * 247 : Nat) ∣ t * (t - 1) := c5.mul_dvd_of_dvd_of_dvd p4 d5
  have p6 : (256 * 255 * 253 * 251 * 247 * 241 : Nat) ∣ t * (t - 1) :=
    c6.mul_dvd_of_dvd_of_dvd p5 d6
  have p7 : (256 * 255 * 253 * 251 * 247 * 241 * 239 : Nat) ∣ t * (t - 1) :=
    c7.mul_dvd_of_dvd_of_dvd p6 d7
  have p8 : (256 * 255 * 253 * 251 * 247 * 241 * 239 * 233 : Nat) ∣ t * (t - 1) :=
    c8.mul_dvd_of_dvd_of_dvd p7 d8
  have p9 : (256 * 255 * 253 * 251 * 247 * 241 * 239 * 233 * 229 : Nat) ∣ t * (t - 1) :=
    c9.mul_dvd_of_dvd_of_dvd p8 d9
  have hpos : 0 < t * (t - 1) :=
    Nat.mul_pos (by clear hcon key d1 d2 d3 d4 d5 d6 d7 d8 d9 p2 p3 p4 p5 p6 p7 p8 p9; omega)
      (by clear hcon key d1 d2 d3 d4 d5 d6 d7 d8 d9 p2 p3 p4 p5 p6 p7 p8 p9; omega)
  have hle := Nat.le_of_dvd hpos p9
  have hbound : t * (t - 1) < 2 ^ 32 * 2 ^ 32 :=
    Nat.mul_lt_mul_of_lt_of_lt hlt
      (by clear hcon key d1 d2 d3 d4 d5 d6 d7 d8 d9 p2 p3 p4 p5 p6 p7 p8 p9; omega)
  clear hcon key d1 d2 d3 d4 d5 d6 d7 d8 d9 p2 p3 p4 p5 p6 p7 p8 p9 c2 c3 c4 c5 c6 c7 c8 c9
  norm_num at hle hbound
  omega

lemma exists_modulus_rem_ne_one (t : Nat) (h2 : 2 ≤ t) (hlt : t < 2 ^ 32) :
    ∃ l, 2 ≤ l ∧ l ≤ 256 ∧ t % l ≠ 1 := by
  by_contra hcon
  push_neg at hcon
  have key : ∀ m, 2 ≤ m → m ≤ 256 → m ∣ t - 1 := by
    intro m hma hmb
    have hmod := hcon m hma hmb
    have hdecomp := Nat.div_add_mod t m
    exact ⟨t / m, by omega⟩
  have d1 : (256 : Nat) ∣ t - 1 := key 256 (by norm_num) (by norm_num)
  have d2 : (255 : Nat) ∣ t - 1 := key 255 (by norm_num) (by norm_num)
  have d3 : (253 : Nat) ∣ t - 1 := key 253 (by norm_num) (by norm_num)
  have d4 : (251 : Nat) ∣ t - 1 := key 251 (by norm_num) (by norm_num)
  have d5 : (247 : Nat) ∣ t - 1 := key 247 (by norm_num) (by norm_num)
  have c2 : Nat.Coprime 256 255 := by decide
  have c3 : Nat.Coprime (256 * 255) 253 := by decide
  have c4 : Nat.Coprime (256 * 255 * 253) 251 := by decide
  have c5 : Nat.Coprime (256 * 255 * 253 * 251) 247 := by decide
  have p2 : (256 * 255 : Nat) ∣ t - 1 := c2.mul_dvd_of_dvd_of_dvd d1 d2
  have p3 : (256 * 255 * 253 : Nat) ∣ t - 1 := c3.mul_dvd_of_dvd_of_dvd p2 d3
  have p4 : (256 * 255 * 253 * 251 : Nat) ∣ t - 1 := c4.mul_dvd_of_dvd_of_dvd p3 d4
  have p5 : (256 * 255 * 253 * 251 * 247 : Nat) ∣ t - 1 := c5.mul_dvd_of_dvd_of_dvd p4 d5
  have hpos : 0 < t - 1 := by clear hcon key d1 d2 d3 d4 d5 p2 p3 p4 p5; omega
  have hle := Nat.le_of_dvd hpos p5
  clear hcon key d1 d2 d3 d4 d5 p2 p3 p4 p5 c2 c3 c4 c5
  norm_num at hle
  omega

end Tad

/-- C6: for each of the three instantiations of `build_rest_loop` used by
`rest_one_keyoff`, `rest_many_keyoffs` and `wait` (with their `Loop`,
`Rem` and `ALLOW_ZERO_REM` parameters), any tick count above the
asserted threshold `Loop::MAX * 3` (and within `u32`) yields a feasible
`(n_loops, ticks_in_loop, remainder)` triple whose total rest-instruction
count `ceil(ticks_in_loop / Loop::MAX) + ceil(remainder / Rem::MAX)` is
at most that of every other feasible choice of `n_loops`. -/
theorem C6_build_rest_loop_optimal :
    (∀ t : Nat, t < 2 ^ 32 → Tad.BcTicksNoKeyOff.MAX * 3 < t →
      Tad.build_rest_loop_optimal_at Tad.BcTicksNoKeyOff.MIN Tad.BcTicksNoKeyOff.MAX
        Tad.BcTicksKeyOff.MIN Tad.BcTicksKeyOff.MAX false t) ∧
    (∀ t : Nat, t < 2 ^ 32 → Tad.BcTicksKeyOff.MAX * 3 < t →
      Tad.build_rest_loop_optimal_at Tad.BcTicksKeyOff.MIN Tad.BcTicksKeyOff.MAX
        Tad.BcTicksKeyOff.MIN Tad.BcTicksKeyOff.MAX true t) ∧
    (∀ t : Nat, t < 2 ^ 32 → Tad.BcTicksNoKeyOff.MAX * 3 < t →
      Tad.build_rest_loop_optimal_at Tad.BcTicksNoKeyOff.MIN Tad.BcTicksNoKeyOff.MAX
        Tad.BcTicksNoKeyOff.MIN Tad.BcTicksNoKeyOff.MAX true t) := by
  refine ⟨?_, ?_, ?_⟩
  · intro t hlt hthr
    unfold Tad.BcTicksNoKeyOff.MAX at hthr
    obtain ⟨l, hl2, hl256, hlrem⟩ := Tad.exists_modulus_rem_ge_two t (by omega) hlt
    refine Tad.build_rest_loop_spec _ _ _ _ _ t l ⟨?_, ?_, ?_, Or.inr ?_⟩
    · unfold Tad.LoopCount.MIN; omega
    · unfold Tad.LoopCount.MAX; omega
    · unfold Tad.BcTicksNoKeyOff.MIN
      rw [Nat.one_le_div_iff (by omega)]
      omega
    · unfold Tad.BcTicksKeyOff.MIN; omega
  · intro t hlt hthr
    unfold Tad.BcTicksKeyOff.MAX at hthr
    obtain ⟨l, hl2, hl256, hlrem⟩ := Tad.exists_modulus_rem_ne_one t (by omega) hlt
    refine Tad.build_rest_loop_spec _ _ _ _ _ t l ⟨?_, ?_, ?_, ?_⟩
    · unfold Tad.LoopCount.MIN; omega
    · unfold Tad.LoopCount.MAX; omega
    · unfold Tad.BcTicksKeyOff.MIN
      rw [Nat.le_div_iff_mul_le (by omega : 0 < l)]
      omega
    · unfold Tad.BcTicksKeyOff.MIN
      rcases Nat.eq_zero_or_pos (t % l) with h0 | hpos
      · exact Or.inl ⟨rfl, h0⟩
      · exact Or.inr (by omega)
  · intro t hlt hthr
    unfold Tad.BcTicksNoKeyOff.MAX at hthr
    refine Tad.build_rest_loop_spec _ _ _ _ _ t 2 ⟨?_, ?_, ?_, ?_⟩
    · unfold Tad.LoopCount.MIN; omega
    · unfold Tad.LoopCount.MAX; omega
    · unfold Tad.BcTicksNoKeyOff.MIN
      rw [Nat.one_le_div_iff (by omega)]
      omega
    · unfold Tad.BcTicksNoKeyOff.MIN
      rcases Nat.eq_zero_or_pos (t % 2) with h0 | hpos
      · exact Or.inl ⟨rfl, h0⟩
      · exact Or.inr (by omega)

/-- C6 witness: the theorem's three conjuncts applied at `t = 1000`. -/
theorem C6_build_rest_loop_optimal_witness :
    (1000 < 2 ^ 32 ∧ Tad.BcTicksNoKeyOff.MAX * 3 < 1000 ∧
      Tad.BcTicksKeyOff.MAX * 3 < 1000) ∧
    Tad.build_rest_loop_optimal_at Tad.BcTicksNoKeyOff.MIN Tad.BcTicksNoKeyOff.MAX
      Tad.BcTicksKeyOff.MIN Tad.BcTicksKeyOff.MAX false 1000 ∧
    Tad.build_rest_loop_optimal_at Tad.BcTicksKeyOff.MIN Tad.BcTicksKeyOff.MAX
      Tad.BcTicksKeyOff.MIN Tad.BcTicksKeyOff.MAX true 1000 ∧
    Tad.build_rest_loop_optimal_at Tad.BcTicksNoKeyOff.MIN Tad.BcTicksNoKeyOff.MAX
      Tad.BcTicksNoKeyOff.MIN Tad.BcTicksNoKeyOff.MAX true 1000 :=
  ⟨⟨by decide, by decide, by decide⟩,
    C6_build_rest_loop_optimal.1 1000 (by decide) (by decide),
    C6_build_rest_loop_optimal.2.1 1000 (by decide) (by decide),
    C6_build_rest_loop_optimal.2.2 1000 (by decide) (by decide)⟩

namespace Tad

/-! ### PanVolValue (compiler/src/bytecode_interpreter.rs lines 117-368)

`u32` arithmetic notes: Rust `wrapping_add`/`wrapping_sub` are modelled
as arithmetic modulo 2^32; `u32::from_le_bytes([a, b, 0, 0])` is
`a + 256 * b`; `.to_le_bytes()[0]` is `% 256` and `[1]` is `/ 256 % 256`.
A Rust division or remainder by zero panics and is modelled as `none`. -/

/-- `MAX_PAN` (= `Pan::MAX`, 128); modelled from the spec
(`driver_constants.rs`/`bytecode.rs` are not in the provided sources);
pinned by `tests/mml.rs`: `p128` is a valid `set_pan 128` and
`p100 p+100` clamps to `set_pan 128`. -/
def MAX_PAN : Nat := 128

/-- `Pan::CENTER` (64), the initial pan; modelled from the spec. -/
def Pan.CENTER : Nat := 64

/-- `STARTING_VOLUME`; modelled from the spec (the exact initial volume
byte is not pinned by the spec or the provided sources and no claim
depends on it). -/
def STARTING_VOLUME : Nat := 96

/-- `PanVolEffectDirection` from `bytecode_interpreter.rs` (lines 117-124). -/
inductive PanVolEffectDirection : Type
  | None
  | SlideUp
  | SlideDown
  | TriangleUp
  | TriangleDown
deriving DecidableEq

/-- `PanVolValue<MAX>` from `bytecode_interpreter.rs` (lines 126-139);
the `const MAX: u8` generic becomes an explicit argument of the
operations below. -/
structure PanVolValue : Type where
  tc : TickCounter
  value : Nat
  sub_value : Nat
  counter : Nat
  direction : PanVolEffectDirection
  half_wavelength : Nat
  offset : Nat
  triangle_starting_value : Nat
deriving DecidableEq

/-- `Self::MAX_U32 = ((MAX as u32) << 8) | 0xff`; the low byte is disjoint
from the shifted value so the bitwise or is addition. -/
def MAX_U32 (M : Nat) : Nat := M * 256 + 255

/-- `PanVolValue::new`. -/
def PanVolValue.new (value : Nat) : PanVolValue :=
  ⟨⟨0⟩, value, 0, 0, .None, 0, 0, 0⟩

/-- `u8_0is256_to_tick_counter` (lines 170-175). -/
def u8_0is256 (t : Nat) : Nat := if t = 0 then 0x100 else t

/-- `PanVolValue::slide_offset` (lines 177-186); the `u32` subtraction
`channel_ticks - tc` is in range whenever `tc ≤ channel_ticks` (the
interpreter's regime, guarded by a `debug_assert`). -/
def PanVolValue.slide_offset (pv : PanVolValue) (channel_ticks : TickCounter) :
    Nat × Nat :=
  let slide_ticks := u8_0is256 pv.counter
  let elapsed := min (channel_ticks.value - pv.tc.value) slide_ticks
  (slide_ticks - elapsed, pv.offset * elapsed)

/-- `TRIANGLE_SUB_START = u8::MAX / 2`. -/
def TRIANGLE_SUB_START : Nat := 127

/-- `PanVolValue::process_triangle` (lines 252-320).  When
`half_wavelength = 0` the source computes `elapsed % wavelength` with
`wavelength = 0`, and when `wavelength / 4 = 0` it computes
`position / quarter_wavelength` — both Rust division-by-zero panics,
modelled as `none`; the `_ => panic!("Wrong quadrant")` arm is also
`none`. -/
def PanVolValue.process_triangle (M : Nat) (pv : PanVolValue)
    (channel_ticks : TickCounter) : Option PanVolValue :=
  let starting_value := TRIANGLE_SUB_START + 256 * pv.triangle_starting_value
  let wavelength := pv.half_wavelength * 2
  let quarter_wavelength := wavelength / 4
  let elapsed := channel_ticks.value - pv.tc.value
  if wavelength = 0 then none
  else
    let position := elapsed % wavelength
    if quarter_wavelength = 0 then none
    else
      let quadrant := position / quarter_wavelength
      if (elapsed ≥ wavelength ∨ quadrant > 0) ∧
          starting_value + quarter_wavelength * pv.offset > MAX_U32 M then
        some { pv with value := M, direction := .None }
      else if (elapsed ≥ wavelength ∨ quadrant > 2) ∧
          quarter_wavelength * pv.offset > starting_value then
        some { pv with value := 0, direction := .None }
      else
        let vd : Option (Nat × PanVolEffectDirection) :=
          if quadrant = 0 then
            some ((starting_value + position * pv.offset) % 2 ^ 32, .TriangleUp)
          else if quadrant = 1 then
            some ((starting_value + (pv.half_wavelength - position) * pv.offset) % 2 ^ 32,
              .TriangleDown)
          else if quadrant = 2 then
            some ((starting_value + 2 ^ 32 -
              (position - pv.half_wavelength) * pv.offset % 2 ^ 32) % 2 ^ 32,
              .TriangleDown)
          else if quadrant = 3 then
            some ((starting_value + 2 ^ 32 -
              (wavelength - position) * pv.offset % 2 ^ 32) % 2 ^ 32,
              .TriangleUp)
          else none
        match vd with
        | none => none
        | some (value, direction) =>
          if value ≤ MAX_U32 M then
            some { pv with
              value := value / 256 % 256,
              sub_value := value % 256,
              counter := (position + quarter_wavelength) % 256 % pv.half_wavelength,
              direction := direction }
          else
            some { pv with
              value := if quadrant < 2 then M else 0,
              direction := .None }

/-- `PanVolValue::update` (lines 188-248). -/
def PanVolValue.update (M : Nat) (pv : PanVolValue) (channel_ticks : TickCounter) :
    Option PanVolValue :=
  if pv.tc = channel_ticks then some pv
  else
    match pv.direction with
    | .None => some pv
    | .SlideUp =>
      let value := pv.sub_value + 256 * pv.value
      let co := pv.slide_offset channel_ticks
      let value2 := (value + co.2) % 2 ^ 32
      let pv1 :=
        if value2 ≤ MAX_U32 M then
          { pv with value := value2 / 256 % 256, sub_value := value2 % 256 }
        else
          { pv with value := M, direction := .None }
      let pv2 := { pv1 with counter := co.1 }
      let pv3 := if co.1 = 0 then { pv2 with direction := .None } else pv2
      some { pv3 with tc := channel_ticks }
    | .SlideDown =>
      let value := pv.sub_value + 256 * pv.value
      let co := pv.slide_offset channel_ticks
      let value2 := (value + 2 ^ 32 - co.2 % 2 ^ 32) % 2 ^ 32
      let pv1 := { pv with sub_value := value2 % 256 }
      let pv2 :=
        if value2 ≤ MAX_U32 M then
          { pv1 with value := value2 / 256 % 256, sub_value := value2 % 256 }
        else
          { pv1 with value := 0, direction := .None }
      let pv3 := { pv2 with counter := co.1 }
      let pv4 := if co.1 = 0 then { pv3 with direction := .None } else pv3
      some { pv4 with tc := channel_ticks }
    | .TriangleUp => pv.process_triangle M channel_ticks
    | .TriangleDown => pv.process_triangle M channel_ticks

/-- `PanVolValue::set_value` (lines 322-325): stores the operand byte
without clamping. -/
def PanVolValue.set_value (pv : PanVolValue) (value : Nat) : PanVolValue :=
  { pv with direction := .None, value := value }

/-- `PanVolValue::adjust_value` (lines 327-332):
`value.saturating_add_signed(amount).clamp(0, MAX)`. -/
def PanVolValue.adjust_value (M : Nat) (pv : PanVolValue) (amount : Int)
    (tc : TickCounter) : Option PanVolValue :=
  (pv.update M tc).map (fun pv2 =>
    { pv2 with
      direction := .None,
      value := min M (min 255 (max 0 ((pv2.value : Int) + amount)).toNat) })

/-- `PanVolValue::slide_up_instruction` (lines 334-343). -/
def PanVolValue.slide_up_instruction (M : Nat) (pv : PanVolValue)
    (ticks o1 o2 : Nat) (tc : TickCounter) : Option PanVolValue :=
  (pv.update M tc).map (fun pv2 =>
    { pv2 with
      tc := tc, counter := ticks, half_wavelength := 0,
      direction := .SlideUp, offset := o1 + 256 * o2, sub_value := 0 })

/-- `PanVolValue::slide_down_instruction` (lines 345-354). -/
def PanVolValue.slide_down_instruction (M : Nat) (pv : PanVolValue)
    (ticks o1 o2 : Nat) (tc : TickCounter) : Option PanVolValue :=
  (pv.update M tc).map (fun pv2 =>
    { pv2 with
      tc := tc, counter := ticks, half_wavelength := 0,
      direction := .SlideDown, offset := o1 + 256 * o2, sub_value := 255 })

/-- `PanVolValue::tremolo_panbrello_instruction` (lines 356-367):
`half_wavelength := qwt.wrapping_mul(2)` is `qwt * 2 % 256`. -/
def PanVolValue.tremolo_panbrello_instruction (M : Nat) (pv : PanVolValue)
    (qwt o1 o2 : Nat) (tc : TickCounter) : Option PanVolValue :=
  (pv.update M tc).map (fun pv2 =>
    { pv2 with
      tc := tc, counter := qwt, half_wavelength := qwt * 2 % 256,
      direction := .TriangleUp, offset := o1 + 256 * o2,
      sub_value := TRIANGLE_SUB_START,
      triangle_starting_value := pv2.value })

/-- One PanVol instruction or update, as C4 quantifies over sequences. -/
inductive PanVolOp : Type
  | set_value (v : Nat)
  | adjust_value (amount : Int) (tc : Nat)
  | slide_up (ticks o1 o2 tc : Nat)
  | slide_down (ticks o1 o2 tc : Nat)
  | tremolo_panbrello (qwt o1 o2 tc : Nat)
  | update (tc : Nat)
deriving DecidableEq

def run_panvol_op (M : Nat) (pv : PanVolValue) : PanVolOp → Option PanVolValue
  | .set_value v => some (pv.set_value v)
  | .adjust_value a tc => pv.adjust_value M a ⟨tc⟩
  | .slide_up t o1 o2 tc => pv.slide_up_instruction M t o1 o2 ⟨tc⟩
  | .slide_down t o1 o2 tc => pv.slide_down_instruction M t o1 o2 ⟨tc⟩
  | .tremolo_panbrello q o1 o2 tc => pv.tremolo_panbrello_instruction M q o1 o2 ⟨tc⟩
  | .update tc => pv.update M ⟨tc⟩

def run_panvol_ops (M : Nat) (pv : PanVolValue) : List PanVolOp → Option PanVolValue
  | [] => some pv
  | op :: rest => (run_panvol_op M pv op).bind (fun pv2 => run_panvol_ops M pv2 rest)

end Tad

namespace Tad

lemma byte1_le (M v : Nat) (h : v ≤ MAX_U32 M) : v / 256 % 256 ≤ M := by
  unfold MAX_U32 at h
  omega

lemma process_triangle_value_le (M : Nat) (pv : PanVolValue) (tc : TickCounter)
    (pv2 : PanVolValue) (hrun : pv.process_triangle M tc = some pv2) :
    pv2.value ≤ M := by
  unfold PanVolValue.process_triangle at hrun
  simp only [] at hrun
  split at hrun
  · exact Option.noConfusion hrun
  split at hrun
  · exact Option.noConfusion hrun
  split at hrun
  · simp only [Option.some.injEq] at hrun
    subst hrun
    exact le_refl M
  split at hrun
  · simp only [Option.some.injEq] at hrun
    subst hrun
    exact Nat.zero_le M
  · split at hrun
    · exact Option.noConfusion hrun
    · rename_i value direction heq
      split at hrun
      · rename_i hle
        simp only [Option.some.injEq] at hrun
        subst hrun
        exact byte1_le M value hle
      · simp only [Option.some.injEq] at hrun
        subst hrun
        split
        · exact le_refl M
        · exact Nat.zero_le M

lemma update_value_le (M : Nat) (pv : PanVolValue) (tc : TickCounter)
    (pv2 : PanVolValue) (hrun : pv.update M tc = some pv2) :
    pv2.value ≤ M ∨ pv2.value = pv.value := by
  unfold PanVolValue.update at hrun
  split at hrun
  · right
    simp only [Option.some.injEq] at hrun
    subst hrun
    rfl
  split at hrun
  · right
    simp only [Option.some.injEq] at hrun
    subst hrun
    rfl
  · -- SlideUp
    simp only [Option.some.injEq] at hrun
    subst hrun
    left
    split <;> split <;> rename_i h2 <;>
      first
        | exact byte1_le M _ h2
        | exact le_refl M
        | exact Nat.zero_le M
  · -- SlideDown
    simp only [Option.some.injEq] at hrun
    subst hrun
    left
    split <;> split <;> rename_i h2 <;>
      first
        | exact byte1_le M _ h2
        | exact le_refl M
        | exact Nat.zero_le M
  · left; exact process_triangle_value_le M pv tc pv2 hrun
  · left; exact process_triangle_value_le M pv tc pv2 hrun

lemma run_panvol_op_value_le (M : Nat) (pv : PanVolValue) (op : PanVolOp)
    (pv2 : PanVolValue) (hval : pv.value ≤ M)
    (hop : ∀ v, op = PanVolOp.set_value v → v ≤ M)
    (hrun : run_panvol_op M pv op = some pv2) : pv2.value ≤ M := by
  cases op with
  | set_value v =>
    simp only [run_panvol_op, Option.some.injEq] at hrun
    subst hrun
    exact hop v rfl
  | adjust_value a tc =>
    simp only [run_panvol_op, PanVolValue.adjust_value, Option.map_eq_some'] at hrun
    obtain ⟨pv3, _, hpv2⟩ := hrun
    subst hpv2
    simp only
    omega
  | slide_up t o1 o2 tc =>
    simp only [run_panvol_op, PanVolValue.slide_up_instruction,
      Option.map_eq_some'] at hrun
    obtain ⟨pv3, hupd, hpv2⟩ := hrun
    subst hpv2
    rcases update_value_le M pv ⟨tc⟩ pv3 hupd with h | h
    · simpa using h
    · simp only
      omega
  | slide_down t o1 o2 tc =>
    simp only [run_panvol_op, PanVolValue.slide_down_instruction,
      Option.map_eq_some'] at hrun
    obtain ⟨pv3, hupd, hpv2⟩ := hrun
    subst hpv2
    rcases update_value_le M pv ⟨tc⟩ pv3 hupd with h | h
    · simpa using h
    · simp only
      omega
  | tremolo_panbrello q o1 o2 tc =>
    simp only [run_panvol_op, PanVolValue.tremolo_panbrello_instruction,
      Option.map_eq_some'] at hrun
    obtain ⟨pv3, hupd, hpv2⟩ := hrun
    subst hpv2
    rcases update_value_le M pv ⟨tc⟩ pv3 hupd with h | h
    · simpa using h
    · simp only
      omega
  | update tc =>
    rcases update_value_le M pv ⟨tc⟩ pv2 hrun with h | h
    · exact h
    · omega

end Tad

/-- C4 counterexample: the claim asserts `value ∈ [0, MAX]` at every read
for the pan state machine (MAX = MAX_PAN = 128), in particular after
`set_value(v)` for every operand byte `v`; but `set_value` stores the
operand unclamped, so `set_value(255)` leaves the pan value at 255. -/
theorem C4_counterexample :
    ((Tad.PanVolValue.new Tad.Pan.CENTER).set_value 255).value = 255 ∧
    ¬ ((Tad.PanVolValue.new Tad.Pan.CENTER).set_value 255).value ≤ Tad.MAX_PAN := by
  refine ⟨rfl, by decide⟩

/-- C4 (amended): the PanVol invariant `value ∈ [0, MAX]` holds at every
read along any sequence of set/adjust/slide/tremolo/panbrello/update
operations that does not panic, provided every `set_value` operand is at
most `MAX`; `adjust_value` clamps, the slide and triangle updates
saturate at `MAX`/0, and only an out-of-range `set_value` operand (never
emitted by the compiler for volume, whose MAX is 255, but possible for
pan) can break it. -/
theorem C4_panvol_value_in_range (M : Nat) (ops : List Tad.PanVolOp)
    (pv0 : Tad.PanVolValue) (h0 : pv0.value ≤ M)
    (hops : ∀ v, Tad.PanVolOp.set_value v ∈ ops → v ≤ M)
    (pv1 : Tad.PanVolValue) (hrun : Tad.run_panvol_ops M pv0 ops = some pv1) :
    pv1.value ≤ M := by
  induction ops generalizing pv0 with
  | nil =>
    simp only [Tad.run_panvol_ops, Option.some.injEq] at hrun
    subst hrun
    exact h0
  | cons op rest ih =>
    simp only [Tad.run_panvol_ops, Option.bind_eq_some] at hrun
    obtain ⟨pvm, hstep, hrest⟩ := hrun
    have hv := Tad.run_panvol_op_value_le M pv0 op pvm h0
      (fun v hv => hops v (by rw [hv] at *; exact List.mem_cons_self _ _)) hstep
    exact ih pvm hv (fun v hv => hops v (List.mem_cons_of_mem op hv)) hrest

/-- C4 witness: the amended theorem for the pan machine (MAX = 128) on a
concrete op sequence: set 100, panbrello, a later adjust, an update. -/
theorem C4_panvol_value_in_range_witness :
    ((Tad.PanVolValue.new Tad.Pan.CENTER).value ≤ Tad.MAX_PAN ∧
      (∀ v, Tad.PanVolOp.set_value v ∈
        [Tad.PanVolOp.set_value 100, Tad.PanVolOp.tremolo_panbrello 4 0 1 0,
          Tad.PanVolOp.adjust_value 20 10, Tad.PanVolOp.update 30] → v ≤ Tad.MAX_PAN) ∧
      (Tad.run_panvol_ops Tad.MAX_PAN (Tad.PanVolValue.new Tad.Pan.CENTER)
        [Tad.PanVolOp.set_value 100, Tad.PanVolOp.tremolo_panbrello 4 0 1 0,
          Tad.PanVolOp.adjust_value 20 10, Tad.PanVolOp.update 30]).isSome = true) ∧
    ∀ pv1, Tad.run_panvol_ops Tad.MAX_PAN (Tad.PanVolValue.new Tad.Pan.CENTER)
        [Tad.PanVolOp.set_value 100, Tad.PanVolOp.tremolo_panbrello 4 0 1 0,
          Tad.PanVolOp.adjust_value 20 10, Tad.PanVolOp.update 30] = some pv1 →
      pv1.value ≤ Tad.MAX_PAN :=
  ⟨⟨by decide, by intro v hv; simp at hv; subst hv; decide, by decide⟩,
    fun pv1 hrun =>
      C4_panvol_value_in_range Tad.MAX_PAN
        [Tad.PanVolOp.set_value 100, Tad.PanVolOp.tremolo_panbrello 4 0 1 0,
          Tad.PanVolOp.adjust_value 20 10, Tad.PanVolOp.update 30]
        (Tad.PanVolValue.new Tad.Pan.CENTER) (by decide)
        (by intro v hv; simp at hv; subst hv; decide) pv1 hrun⟩

namespace Tad

/-! ### ChannelState interpreter (compiler/src/bytecode_interpreter.rs
lines 370-916)

`u16`/`u8` arithmetic wraps modulo 2^16 / 2^8 where the Rust release
build wraps; `checked_add_signed`/`checked_sub` failures disable the
channel as in the source. -/

/-- `BC_CHANNEL_STACK_SIZE`; modelled from the spec
(`driver_constants.rs` is not in the provided sources; the exact size is
not pinned by the spec and no claim depends on it — 21 bytes holds the
spec's loop/call frames). -/
def BC_CHANNEL_STACK_SIZE : Nat := 21

/-- `BC_STACK_BYTES_PER_LOOP` (3); modelled from the spec (§4.2: each
`start_loop` reserves 3 bytes). -/
def BC_STACK_BYTES_PER_LOOP : Nat := 3

/-- `SONG_HEADER_N_SUBROUTINES_OFFSET`; modelled from the spec (§6: the
song header starts with the subroutine count). -/
def SONG_HEADER_N_SUBROUTINES_OFFSET : Nat := 0

/-- `SONG_HEADER_SIZE`; modelled from the spec (the fixed header size is
not pinned by the spec and no claim depends on it). -/
def SONG_HEADER_SIZE : Nat := 14

/-- `TickCounter::MAX` (`u32::MAX` ticks); used by `disable_channel`.
Modelled from the spec ("ticks := maximum tick counter"); the constant is
not in the provided `time.rs`. -/
def TickCounter.MAX : TickCounter := ⟨2 ^ 32 - 1⟩

/-- Opcode byte values, `bytecode.rs::opcodes`.  Modelled from the spec:
the spec pins only that play-note opcodes occupy a contiguous high half
of the opcode space (`FIRST_PLAY_NOTE_INSTRUCTION = 0x80`) with the other
opcodes below it; the individual byte values are not pinned and are
chosen distinct. -/
def opcodes.FIRST_PLAY_NOTE_INSTRUCTION : Nat := 0x80

def opcodes.PORTAMENTO_DOWN : Nat := 1
def opcodes.PORTAMENTO_UP : Nat := 2
def opcodes.SET_VIBRATO : Nat := 3
def opcodes.SET_VIBRATO_DEPTH_AND_PLAY_NOTE : Nat := 4
def opcodes.WAIT : Nat := 5
def opcodes.REST : Nat := 6
def opcodes.PLAY_PITCH : Nat := 7
def opcodes.SET_INSTRUMENT : Nat := 8
def opcodes.SET_INSTRUMENT_AND_ADSR_OR_GAIN : Nat := 9
def opcodes.SET_ADSR : Nat := 10
def opcodes.SET_GAIN : Nat := 11
def opcodes.SET_TEMP_GAIN : Nat := 12
def opcodes.SET_TEMP_GAIN_AND_REST : Nat := 13
def opcodes.SET_TEMP_GAIN_AND_WAIT : Nat := 14
def opcodes.REUSE_TEMP_GAIN : Nat := 15
def opcodes.REUSE_TEMP_GAIN_AND_REST : Nat := 16
def opcodes.REUSE_TEMP_GAIN_AND_WAIT : Nat := 17
def opcodes.SET_EARLY_RELEASE : Nat := 18
def opcodes.SET_EARLY_RELEASE_NO_MINIMUM : Nat := 19
def opcodes.ADJUST_PAN : Nat := 20
def opcodes.SET_PAN : Nat := 21
def opcodes.SET_PAN_AND_VOLUME : Nat := 22
def opcodes.ADJUST_VOLUME : Nat := 23
def opcodes.SET_VOLUME : Nat := 24
def opcodes.VOLUME_SLIDE_UP : Nat := 25
def opcodes.VOLUME_SLIDE_DOWN : Nat := 26
def opcodes.TREMOLO : Nat := 27
def opcodes.PAN_SLIDE_UP : Nat := 28
def opcodes.PAN_SLIDE_DOWN : Nat := 29
def opcodes.PANBRELLO : Nat := 30
def opcodes.SET_SONG_TICK_CLOCK : Nat := 31
def opcodes.GOTO_RELATIVE : Nat := 32
def opcodes.START_LOOP : Nat := 33
def opcodes.SKIP_LAST_LOOP : Nat := 34
def opcodes.END_LOOP : Nat := 35
def opcodes.CALL_SUBROUTINE_AND_DISABLE_VIBRATO : Nat := 36
def opcodes.CALL_SUBROUTINE : Nat := 37
def opcodes.RETURN_FROM_SUBROUTINE_AND_DISABLE_VIBRATO : Nat := 38
def opcodes.RETURN_FROM_SUBROUTINE : Nat := 39
def opcodes.ENABLE_ECHO : Nat := 40
def opcodes.DISABLE_ECHO : Nat := 41
def opcodes.DISABLE_CHANNEL : Nat := 42

/-- `GlobalState` from `bytecode_interpreter.rs` (lines 105-115). -/
structure GlobalState : Type where
  timer_register : Nat
deriving DecidableEq

/-- `ChannelState` from `bytecode_interpreter.rs` (lines 370-414). -/
structure ChannelState : Type where
  ticks : TickCounter
  disabled : Bool
  song_ptr : Nat
  instruction_ptr : Nat
  topmost_return_pos : Option Nat
  call_stack_depth : Nat
  stack_pointer : Nat
  loop_stack_pointer : Nat
  bc_stack : List Nat
  instrument : Option Nat
  adsr_or_gain_override : Option (Nat × Nat)
  temp_gain : Nat
  prev_temp_gain : Nat
  early_release_cmp : Nat
  early_release_min_ticks : Nat
  early_release_gain : Nat
  volume : PanVolValue
  pan : PanVolValue
  echo : Bool
  vibrato_pitch_offset_per_tick : Nat
  vibrato_quarter_wavelength_in_ticks : Nat
deriving DecidableEq

/-- `ChannelState::new` (lines 417-441), for a channel whose
`bytecode_offset` is given. -/
def ChannelState.new (bytecode_offset song_ptr : Nat) : ChannelState where
  ticks := ⟨0⟩
  disabled := false
  song_ptr := song_ptr
  instruction_ptr := bytecode_offset
  topmost_return_pos := none
  call_stack_depth := 0
  stack_pointer := BC_CHANNEL_STACK_SIZE
  loop_stack_pointer := BC_CHANNEL_STACK_SIZE - BC_STACK_BYTES_PER_LOOP
  bc_stack := List.replicate BC_CHANNEL_STACK_SIZE 0
  instrument := none
  adsr_or_gain_override := some (0, 0)
  temp_gain := 0
  prev_temp_gain := 0
  early_release_cmp := 0
  early_release_min_ticks := 0
  early_release_gain := 0
  volume := PanVolValue.new STARTING_VOLUME
  pan := PanVolValue.new Pan.CENTER
  echo := false
  vibrato_pitch_offset_per_tick := 0
  vibrato_quarter_wavelength_in_ticks := 0

/-- `read_subroutine_instruction_ptr` (lines 443-453); the unchecked
index into the song header is `none` (a panic) when the song data is
shorter than the header offset. -/
def ChannelState.read_subroutine_instruction_ptr (s_id : Nat)
    (song_data : List Nat) : Option Nat :=
  if hlt : SONG_HEADER_N_SUBROUTINES_OFFSET < song_data.length then
    let n_subroutines := song_data.getD SONG_HEADER_N_SUBROUTINES_OFFSET 0
    let li := s_id + SONG_HEADER_SIZE
    let hi := li + n_subroutines
    let l := (song_data.get? li).getD 0xff
    let h := (song_data.get? hi).getD 0xff
    some (l + 256 * h)
  else none

/-- `to_tick_count` (lines 455-461). -/
def ChannelState.to_tick_count (length : Nat) (key_off : Bool) : TickCounter :=
  if length > 0 then ⟨length + (if key_off then 1 else 0)⟩
  else ⟨0x100 + (if key_off then 1 else 0)⟩

/-- `disable_channel` (lines 463-469). -/
def ChannelState.disable_channel (c : ChannelState) : ChannelState :=
  { c with
    disabled := true
    instruction_ptr := 0xffff
    ticks := TickCounter.MAX
    vibrato_pitch_offset_per_tick := 0 }

/-- `play_note` (lines 471-479). -/
def ChannelState.play_note (c : ChannelState) (note_and_key_off_bit length : Nat) :
    ChannelState :=
  let key_off := note_and_key_off_bit % 2 = 1
  let c := { c with ticks := c.ticks.add (to_tick_count length key_off) }
  if key_off then { c with temp_gain := 0 } else c

/-- `call_subroutine` (lines 481-501). -/
def ChannelState.call_subroutine (c : ChannelState) (s_id : Nat)
    (song_data : List Nat) : Option ChannelState :=
  let depth := (c.call_stack_depth + 1) % 256
  let c := { c with call_stack_depth := depth }
  let c := if depth = 1 then { c with topmost_return_pos := some c.instruction_ptr }
           else c
  if h2 : 2 ≤ c.stack_pointer then
    let sp := c.stack_pointer - 2
    let inst_ptr := (c.instruction_ptr + c.song_ptr) % 65536
    let c := { c with
      stack_pointer := sp,
      bc_stack := (c.bc_stack.set sp (inst_ptr % 256)).set (sp + 1) (inst_ptr / 256 % 256) }
    match read_subroutine_instruction_ptr s_id song_data with
    | some p => some { c with instruction_ptr := p }
    | none => none
  else some c.disable_channel

/-- `return_from_subroutine` (lines 503-527). -/
def ChannelState.return_from_subroutine (c : ChannelState) : ChannelState :=
  let depth := c.call_stack_depth - 1
  let c := { c with call_stack_depth := depth }
  let c := if depth = 0 then { c with topmost_return_pos := none } else c
  let sp := c.stack_pointer
  if sp ≤ BC_CHANNEL_STACK_SIZE - 2 then
    let c := { c with stack_pointer := sp + 2 }
    let c := if sp + 2 ≤ BC_CHANNEL_STACK_SIZE - BC_STACK_BYTES_PER_LOOP then
        { c with loop_stack_pointer := sp + 2 }
      else c
    let inst_ptr := c.bc_stack.getD sp 0 + 256 * c.bc_stack.getD (sp + 1) 0
    if c.song_ptr ≤ inst_ptr then { c with instruction_ptr := inst_ptr - c.song_ptr }
    else c.disable_channel
  else c.disable_channel

/-- The `read_pc` closure (lines 530-539): returns the byte and the
updated state; a read past the end of the song data disables the channel
and yields the `DISABLE_CHANNEL` opcode byte. -/
def readPc (song_data : List Nat) (c : ChannelState) : Nat × ChannelState :=
  match song_data.get? c.instruction_ptr with
  | some b => (b, { c with instruction_ptr := (c.instruction_ptr + 1) % 65536 })
  | none => (opcodes.DISABLE_CHANNEL, c.disable_channel)

/-- An `i16` from two little-endian bytes. -/
def i16_from_le (l h : Nat) : Int :=
  let v := l % 256 + 256 * (h % 256)
  if v < 32768 then (v : Int) else (v : Int) - 65536

end Tad

namespace Tad

/-- `ChannelState::process_next_bytecode` (lines 529-871): executes one
bytecode instruction.  `none` models a Rust panic (the only panicking
paths are inside the PanVol update, reached from the pan/volume
instructions). -/
def ChannelState.process_next_bytecode (global : GlobalState)
    (song_data : List Nat) (c : ChannelState) :
    Option (ChannelState × GlobalState) :=
  let r0 := readPc song_data c
  let opcode := r0.1
  let c := r0.2
  if opcodes.FIRST_PLAY_NOTE_INSTRUCTION ≤ opcode then
    let r1 := readPc song_data c
    some ((r1.2.play_note opcode r1.1), global)
  else if opcode = opcodes.PORTAMENTO_DOWN ∨ opcode = opcodes.PORTAMENTO_UP then
    let r1 := readPc song_data c
    let r2 := readPc song_data r1.2
    let r3 := readPc song_data r2.2
    some ((r3.2.play_note r3.1 r2.1), global)
  else if opcode = opcodes.SET_VIBRATO then
    let r1 := readPc song_data c
    let r2 := readPc song_data r1.2
    some ({ r2.2 with
      vibrato_pitch_offset_per_tick := r1.1,
      vibrato_quarter_wavelength_in_ticks := r2.1 }, global)
  else if opcode = opcodes.SET_VIBRATO_DEPTH_AND_PLAY_NOTE then
    let r1 := readPc song_data c
    let r2 := readPc song_data r1.2
    let r3 := readPc song_data r2.2
    some (({ r3.2 with vibrato_pitch_offset_per_tick := r1.1 }).play_note r2.1 r3.1,
      global)
  else if opcode = opcodes.WAIT then
    let r1 := readPc song_data c
    some ({ r1.2 with ticks := r1.2.ticks.add (to_tick_count r1.1 false) }, global)
  else if opcode = opcodes.REST then
    let r1 := readPc song_data c
    some ({ r1.2 with
      ticks := r1.2.ticks.add (to_tick_count r1.1 true), temp_gain := 0 }, global)
  else if opcode = opcodes.PLAY_PITCH then
    let r1 := readPc song_data c
    let r2 := readPc song_data r1.2
    let r3 := readPc song_data r2.2
    let key_off := r2.1 % 2 = 1
    some ({ r3.2 with ticks := r3.2.ticks.add (to_tick_count r3.1 key_off) }, global)
  else if opcode = opcodes.SET_INSTRUMENT then
    let r1 := readPc song_data c
    some ({ r1.2 with
      instrument := some r1.1, adsr_or_gain_override := none, temp_gain := 0 }, global)
  else if opcode = opcodes.SET_INSTRUMENT_AND_ADSR_OR_GAIN then
    let r1 := readPc song_data c
    let r2 := readPc song_data r1.2
    let r3 := readPc song_data r2.2
    some ({ r3.2 with
      instrument := some r1.1, adsr_or_gain_override := some (r2.1, r3.1),
      temp_gain := 0 }, global)
  else if opcode = opcodes.SET_ADSR then
    let r1 := readPc song_data c
    let r2 := readPc song_data r1.2
    some ({ r2.2 with
      adsr_or_gain_override := some (r1.1, r2.1), temp_gain := 0 }, global)
  else if opcode = opcodes.SET_GAIN then
    let r1 := readPc song_data c
    some ({ r1.2 with
      adsr_or_gain_override := some (0, r1.1), temp_gain := 0 }, global)
  else if opcode = opcodes.SET_TEMP_GAIN then
    let r1 := readPc song_data c
    some ({ r1.2 with temp_gain := r1.1, prev_temp_gain := r1.1 }, global)
  else if opcode = opcodes.SET_TEMP_GAIN_AND_REST then
    let r1 := readPc song_data c
    let r2 := readPc song_data r1.2
    some ({ r2.2 with
      prev_temp_gain := r1.1,
      ticks := r2.2.ticks.add (to_tick_count r2.1 true),
      temp_gain := 0 }, global)
  else if opcode = opcodes.SET_TEMP_GAIN_AND_WAIT then
    let r1 := readPc song_data c
    let r2 := readPc song_data r1.2
    some ({ r2.2 with
      temp_gain := r1.1, prev_temp_gain := r1.1,
      ticks := r2.2.ticks.add (to_tick_count r2.1 false) }, global)
  else if opcode = opcodes.REUSE_TEMP_GAIN then
    some ({ c with temp_gain := c.prev_temp_gain }, global)
  else if opcode = opcodes.REUSE_TEMP_GAIN_AND_REST then
    let r1 := readPc song_data c
    some ({ r1.2 with
      ticks := r1.2.ticks.add (to_tick_count r1.1 true), temp_gain := 0 }, global)
  else if opcode = opcodes.REUSE_TEMP_GAIN_AND_WAIT then
    let r1 := readPc song_data c
    some ({ r1.2 with
      temp_gain := r1.2.prev_temp_gain,
      ticks := r1.2.ticks.add (to_tick_count r1.1 false) }, global)
  else if opcode = opcodes.SET_EARLY_RELEASE then
    let r1 := readPc song_data c
    let r2 := readPc song_data r1.2
    let r3 := readPc song_data r2.2
    some ({ r3.2 with
      early_release_cmp := r1.1, early_release_min_ticks := r2.1,
      early_release_gain := r3.1 }, global)
  else if opcode = opcodes.SET_EARLY_RELEASE_NO_MINIMUM then
    let r1 := readPc song_data c
    let r2 := readPc song_data r1.2
    some ({ r2.2 with
      early_release_cmp := r1.1, early_release_min_ticks := 0,
      early_release_gain := r2.1 }, global)
  else if opcode = opcodes.ADJUST_PAN then
    let r1 := readPc song_data c
    let p : Int := if r1.1 % 256 < 128 then (r1.1 % 256 : Int) else (r1.1 % 256 : Int) - 256
    (r1.2.pan.adjust_value MAX_PAN p r1.2.ticks).map
      (fun pan2 => ({ r1.2 with pan := pan2 }, global))
  else if opcode = opcodes.SET_PAN then
    let r1 := readPc song_data c
    some ({ r1.2 with pan := r1.2.pan.set_value r1.1 }, global)
  else if opcode = opcodes.SET_PAN_AND_VOLUME then
    let r1 := readPc song_data c
    let r2 := readPc song_data r1.2
    some ({ r2.2 with
      pan := r2.2.pan.set_value r1.1,
      volume := r2.2.volume.set_value r2.1 }, global)
  else if opcode = opcodes.ADJUST_VOLUME then
    let r1 := readPc song_data c
    let v : Int := if r1.1 % 256 < 128 then (r1.1 % 256 : Int) else (r1.1 % 256 : Int) - 256
    (r1.2.volume.adjust_value 0xff v r1.2.ticks).map
      (fun vol2 => ({ r1.2 with volume := vol2 }, global))
  else if opcode = opcodes.SET_VOLUME then
    let r1 := readPc song_data c
    some ({ r1.2 with volume := r1.2.volume.set_value r1.1 }, global)
  else if opcode = opcodes.VOLUME_SLIDE_UP then
    let r1 := readPc song_data c
    let r2 := readPc song_data r1.2
    let r3 := readPc song_data r2.2
    (r3.2.volume.slide_up_instruction 0xff r1.1 r2.1 r3.1 r3.2.ticks).map
      (fun vol2 => ({ r3.2 with volume := vol2 }, global))
  else if opcode = opcodes.VOLUME_SLIDE_DOWN then
    let r1 := readPc song_data c
    let r2 := readPc song_data r1.2
    let r3 := readPc song_data r2.2
    (r3.2.volume.slide_down_instruction 0xff r1.1 r2.1 r3.1 r3.2.ticks).map
      (fun vol2 => ({ r3.2 with volume := vol2 }, global))
  else if opcode = opcodes.TREMOLO then
    let r1 := readPc song_data c
    let r2 := readPc song_data r1.2
    let r3 := readPc song_data r2.2
    (r3.2.volume.tremolo_panbrello_instruction 0xff r1.1 r2.1 r3.1 r3.2.ticks).map
      (fun vol2 => ({ r3.2 with volume := vol2 }, global))
  else if opcode = opcodes.PAN_SLIDE_UP then
    let r1 := readPc song_data c
    let r2 := readPc song_data r1.2
    let r3 := readPc song_data r2.2
    (r3.2.pan.slide_up_instruction MAX_PAN r1.1 r2.1 r3.1 r3.2.ticks).map
      (fun pan2 => ({ r3.2 with pan := pan2 }, global))
  else if opcode = opcodes.PAN_SLIDE_DOWN then
    let r1 := readPc song_data c
    let r2 := readPc song_data r1.2
    let r3 := readPc song_data r2.2
    (r3.2.pan.slide_down_instruction MAX_PAN r1.1 r2.1 r3.1 r3.2.ticks).map
      (fun pan2 => ({ r3.2 with pan := pan2 }, global))
  else if opcode = opcodes.PANBRELLO then
    let r1 := readPc song_data c
    let r2 := readPc song_data r1.2
    let r3 := readPc song_data r2.2
    (r3.2.pan.tremolo_panbrello_instruction MAX_PAN r1.1 r2.1 r3.1 r3.2.ticks).map
      (fun pan2 => ({ r3.2 with pan := pan2 }, global))
  else if opcode = opcodes.SET_SONG_TICK_CLOCK then
    let r1 := readPc song_data c
    some (r1.2, { global with timer_register := r1.1 })
  else if opcode = opcodes.GOTO_RELATIVE then
    let r1 := readPc song_data c
    let r2 := readPc song_data r1.2
    let c2 := r2.2
    if c2.disabled = false then
      let c3 := { c2 with instruction_ptr := (c2.instruction_ptr + 65535) % 65536 }
      let offset := i16_from_le r1.1 r2.1
      let target : Int := (c3.instruction_ptr : Int) + offset
      if 0 ≤ target ∧ target < 65536 then
        some ({ c3 with instruction_ptr := target.toNat }, global)
      else some (c3.disable_channel, global)
    else some (c2, global)
  else if opcode = opcodes.START_LOOP then
    let r1 := readPc song_data c
    let c2 := r1.2
    if 3 ≤ c2.stack_pointer then
      let sp := c2.stack_pointer - 3
      let inst_ptr := (c2.song_ptr + c2.instruction_ptr) % 65536
      some ({ c2 with
        stack_pointer := sp,
        loop_stack_pointer := sp,
        bc_stack := ((c2.bc_stack.set sp r1.1).set (sp + 1) (inst_ptr % 256)).set
          (sp + 2) (inst_ptr / 256 % 256) }, global)
    else some (c2.disable_channel, global)
  else if opcode = opcodes.SKIP_LAST_LOOP then
    let r1 := readPc song_data c
    let c2 := r1.2
    let sp := c2.loop_stack_pointer
    let counter := c2.bc_stack.getD sp 0
    if counter = 1 then
      let c3 := { c2 with
        instruction_ptr := (c2.instruction_ptr + r1.1) % 65536,
        stack_pointer := sp + 3 }
      if sp + 3 ≤ BC_CHANNEL_STACK_SIZE - BC_STACK_BYTES_PER_LOOP then
        some ({ c3 with loop_stack_pointer := sp + 3 }, global)
      else some (c3, global)
    else some (c2, global)
  else if opcode = opcodes.END_LOOP then
    let sp := c.loop_stack_pointer
    let counter := (c.bc_stack.getD sp 0 + 255) % 256
    if counter ≠ 0 then
      let c2 := { c with bc_stack := c.bc_stack.set sp counter }
      let inst_ptr := c2.bc_stack.getD (sp + 1) 0 + 256 * c2.bc_stack.getD (sp + 2) 0
      if c2.song_ptr ≤ inst_ptr then
        some ({ c2 with instruction_ptr := inst_ptr - c2.song_ptr }, global)
      else some (c2.disable_channel, global)
    else
      let c2 := { c with stack_pointer := sp + 3 }
      if sp + 3 ≤ BC_CHANNEL_STACK_SIZE - BC_STACK_BYTES_PER_LOOP then
        some ({ c2 with loop_stack_pointer := sp + 3 }, global)
      else some (c2, global)
  else if opcode = opcodes.CALL_SUBROUTINE_AND_DISABLE_VIBRATO then
    let r1 := readPc song_data c
    (({ r1.2 with vibrato_pitch_offset_per_tick := 0 }).call_subroutine r1.1
      song_data).map (fun c2 => (c2, global))
  else if opcode = opcodes.CALL_SUBROUTINE then
    let r1 := readPc song_data c
    (r1.2.call_subroutine r1.1 song_data).map (fun c2 => (c2, global))
  else if opcode = opcodes.RETURN_FROM_SUBROUTINE_AND_DISABLE_VIBRATO then
    some (({ c with vibrato_pitch_offset_per_tick := 0 }).return_from_subroutine,
      global)
  else if opcode = opcodes.RETURN_FROM_SUBROUTINE then
    some (c.return_from_subroutine, global)
  else if opcode = opcodes.ENABLE_ECHO then
    some ({ c with echo := true }, global)
  else if opcode = opcodes.DISABLE_ECHO then
    some ({ c with echo := false }, global)
  else
    some (c.disable_channel, global)

/-- One interpreter step on a (channel, global) pair. -/
def interpStep (song_data : List Nat) (p : ChannelState × GlobalState) :
    Option (ChannelState × GlobalState) :=
  ChannelState.process_next_bytecode p.2 song_data p.1

/-- The three-instruction song exercising the triangle division by zero:
`tremolo qwt=0 offset=1`, `wait 10`, `adjust_volume +5`. -/
def c3_song : List Nat :=
  [opcodes.TREMOLO, 0, 1, 0, opcodes.WAIT, 10, opcodes.ADJUST_VOLUME, 5]

end Tad

/-- C3: the interpreter's instruction step is claimed to be total (never
panicking), with invalid operations disabling the channel instead.  The
code violates this: a TREMOLO (or PANBRELLO) instruction with
quarter-wavelength operand 0 stores `half_wavelength = 0`, and the next
pan/volume update computes `elapsed % wavelength` with
`wavelength = half_wavelength * 2 = 0` in `PanVolValue::process_triangle`
— a Rust division-by-zero panic (modelled as `none`).  Concretely: after
executing `tremolo 0,1,0` and `wait 10` (both of which succeed and leave
the channel enabled), the `adjust_volume +5` step panics. -/
theorem C3_process_triangle_division_by_zero :
    (Tad.interpStep Tad.c3_song (Tad.ChannelState.new 0 0, ⟨64⟩)).isSome = true ∧
    (((Tad.interpStep Tad.c3_song (Tad.ChannelState.new 0 0, ⟨64⟩)).bind
      (Tad.interpStep Tad.c3_song)).map (fun p => p.1.disabled) = some false) ∧
    (((Tad.interpStep Tad.c3_song (Tad.ChannelState.new 0 0, ⟨64⟩)).bind
      (Tad.interpStep Tad.c3_song)).bind (Tad.interpStep Tad.c3_song)) = none := by
  refine ⟨rfl, rfl, rfl⟩

namespace Tad

/-! ### call_subroutine MP-state update (bc_generator.rs lines 733-779) -/

/-- `MpVibrato` (`command_parser.rs`, not in the provided sources):
depth in cents and quarter-wavelength ticks, spec §4.3.2-4.3.3. -/
structure MpVibrato : Type where
  depth_in_cents : Nat
  quarter_wavelength_ticks : Nat
deriving DecidableEq

/-- `MpState` from `bc_generator.rs` (lines 89-94). -/
inductive MpState : Type
  | Disabled
  | Manual
  | Mp (v : MpVibrato)
deriving DecidableEq

/-- `VibratoState` (`bytecode.rs`, not in the provided sources); variants
modelled from spec §3: `Unchanged | Unknown | Disabled |
Set(pitch_offset_per_tick, qwt)`. -/
inductive VibratoState : Type
  | Unchanged
  | Unknown
  | Disabled
  | Set (pitch_offset_per_tick qwt : Nat)
deriving DecidableEq

/-- The mp-state update at the end of
`ChannelBcGenerator::call_subroutine` (lines 771-777), applied to the
assembler's vibrato state after the call instruction was emitted:
`if let VibratoState::Set(..) = vibrato { match mp { Disabled | Manual =>
mp = Manual, Mp(_) => () } }`. -/
def call_subroutine_mp_update (mp : MpState) (vibrato_after : VibratoState) :
    MpState :=
  match vibrato_after with
  | .Set _ _ =>
    match mp with
    | .Disabled => .Manual
    | .Manual => .Manual
    | .Mp v => .Mp v
  | _ => mp

end Tad

/-- C9 counterexample: the claim says that after a successful
`call_subroutine`, a vibrato state of `Set(..)` forces the generator's MP
mode to `Manual` for every prior mode including `Mp{..}`; but the code
leaves an `Mp` mode unchanged. -/
theorem C9_counterexample :
    Tad.call_subroutine_mp_update (.Mp ⟨100, 4⟩) (.Set 23 4) = .Mp ⟨100, 4⟩ ∧
    Tad.call_subroutine_mp_update (.Mp ⟨100, 4⟩) (.Set 23 4) ≠ .Manual := by
  refine ⟨rfl, by decide⟩

/-- C9 (amended): after `call_subroutine` returns successfully, if the
assembler's vibrato state is `Set(..)` and the MP mode held before the
call was `Disabled` or `Manual`, the generator's MP mode is `Manual`; an
`Mp{..}` mode is left unchanged. -/
theorem C9_call_subroutine_mp_manual (mp : Tad.MpState) (po qwt : Nat)
    (h : mp = .Disabled ∨ mp = .Manual) :
    Tad.call_subroutine_mp_update mp (.Set po qwt) = .Manual := by
  rcases h with h | h <;> subst h <;> rfl

/-- C9 witness: the amended theorem at `mp = Disabled`, vibrato
`Set(1, 1)`. -/
theorem C9_call_subroutine_mp_manual_witness :
    ((Tad.MpState.Disabled = Tad.MpState.Disabled ∨
      Tad.MpState.Disabled = Tad.MpState.Manual)) ∧
    Tad.call_subroutine_mp_update Tad.MpState.Disabled (.Set 1 1) = .Manual :=
  ⟨Or.inl rfl, C9_call_subroutine_mp_manual Tad.MpState.Disabled 1 1 (Or.inl rfl)⟩
